import Mathlib

/-!
Verification development for the fin_evo_agent repository: a shallow
embedding in Lean 4 of the core data model and operations (tool registry,
verification gateway, sandboxed executor's static analyzer, contract
catalog, synthesizer, refiner, deduplicator), together with theorems
checking the natural-language specification against the code.

Python-level conventions used throughout the embedding:
* Python `dict`s become association lists (`List (String × _)`) in
  insertion order; Python `set`s become `List String` used only through
  membership.
* SQLite state becomes explicit record states threaded through the
  operations.
* External effects (the LLM, the subprocess runner, SHA-256) are oracles:
  they enter as function parameters, never as stubs of repository logic.
* Fallible Python code (a raised exception) is an `Except` value.
-/

namespace FinEvo

/-- Python `needle in haystack` on strings: `isPreOf n h` is true when `n`
is a prefix of `h` (character lists). -/
def isPreOf (needle hay : List Char) : Bool :=
  match needle, hay with
  | [], _ => true
  | _ :: _, [] => false
  | a :: as, b :: bs => a == b && isPreOf as bs

/-- Occurrence of `needle` anywhere in `hay` (character lists). -/
def occursIn (needle : List Char) : List Char → Bool
  | [] => isPreOf needle []
  | b :: bs => isPreOf needle (b :: bs) || occursIn needle bs

/-- Python substring test `needle in hay`. -/
def pyContains (hay needle : String) : Bool :=
  occursIn needle.data hay.data

/-- Python `s[:n]` (by characters). -/
def pyTake (n : Nat) (s : String) : String :=
  String.mk (s.data.take n)

/-- Python `a < b` on strings: lexicographic by code point. -/
def strLtChars : List Char → List Char → Bool
  | [], [] => false
  | [], _ :: _ => true
  | _ :: _, [] => false
  | a :: as, b :: bs =>
      if a.toNat < b.toNat then true
      else if b.toNat < a.toNat then false
      else strLtChars as bs

/-- Python string `<`. -/
def pyStrLt (a b : String) : Bool := strLtChars a.data b.data

/-- Python `max(xs, key=f)` with string keys: keeps the first element whose
key is maximal (later elements replace only on strictly greater key).
Returns `none` on the empty list (Python raises there; the one caller
checks emptiness first). -/
def pyMaxBy {α : Type} (f : α → String) : List α → Option α
  | [] => none
  | x :: xs => some (xs.foldl (fun best y => if pyStrLt (f best) (f y) then y else best) x)

/-- Python `s.split(sep)` for a single-character separator (every split
in the embedded code uses one), keeping empty pieces. -/
def splitChar (sep : Char) : List Char → List (List Char)
  | [] => [[]]
  | c :: rest =>
      let r := splitChar sep rest
      if c == sep then [] :: r
      else
        match r with
        | h :: t => (c :: h) :: t
        | [] => [[c]]

/-- `s.split(sep)` returning strings. -/
def pySplit (s : String) (sep : Char) : List String :=
  (splitChar sep s.data).map String.mk

/-- ASCII lowercase of one character (Python `str.lower()`; every string
lowered by the embedded code is ASCII-or-CJK, and CJK is unaffected). -/
def lowerChar (c : Char) : Char :=
  if 65 ≤ c.toNat && c.toNat ≤ 90 then Char.ofNat (c.toNat + 32) else c

/-- Python `s.lower()`. -/
def pyLower (s : String) : String := String.mk (s.data.map lowerChar)

/-- A decimal digit's value. -/
def charDigit (c : Char) : Option Nat :=
  if 48 ≤ c.toNat && c.toNat ≤ 57 then some (c.toNat - 48) else none

/-- Python `int(s)` on non-negative decimals, `none` elsewhere. -/
def parseNat (s : String) : Option Nat :=
  if s.data.isEmpty then none
  else s.data.foldl (fun acc c =>
    match acc, charDigit c with
    | some n, some d => some (n * 10 + d)
    | _, _ => none) (some 0)

/-- Python `s.strip()`. -/
def pyStrip (s : String) : String :=
  String.mk (((s.data.dropWhile Char.isWhitespace).reverse.dropWhile
    Char.isWhitespace).reverse)

/-- `map(int, v.split('.'))` and patch bump, as in
`ToolRegistry.register` (registry.py:84-85): parse the three dotted
components as integers and re-render with the patch incremented.
Malformed versions raise in Python; the registry only ever stores
well-formed `a.b.c` versions, on which this function agrees. -/
def bumpPatch (v : String) : String :=
  match pySplit v '.' with
  | [a, b, c] =>
      toString ((parseNat a).getD 0) ++ "." ++ toString ((parseNat b).getD 0)
        ++ "." ++ toString ((parseNat c).getD 0 + 1)
  | _ => v

/-- In-place update of the element at an index, identity out of range. -/
def updateAt {α : Type} (f : α → α) : Nat → List α → List α
  | _, [] => []
  | 0, x :: xs => f x :: xs
  | n + 1, x :: xs => x :: updateAt f n xs

/-- Python truthiness of an `Optional[str]`. -/
def truthy : Option String → Bool
  | none => false
  | some s => !(s == "")

-- ---------------------------------------------------------------------
-- Data model (src/core/models.py)
-- ---------------------------------------------------------------------

/-- `ToolStatus` (models.py:24-29). -/
inductive ToolStatus
  | provisional
  | verified
  | deprecated
  | failed
deriving Repr, DecidableEq

/-- `Permission` values (models.py:32-36); stored as their string values. -/
def Permission.CALC_ONLY : String := "calc_only"

def Permission.NETWORK_READ : String := "network_read"

def Permission.FILE_WRITE : String := "file_write"

/-- Modelled from the spec: the `VerificationStage` enum is imported from
`src.core.models` by verifier.py and synthesizer.py but is absent from
src/core/models.py. Spec §3 ("verification stage reached (0-4)") and §4.5
fix its values: 0 none, 1 AST security, 2 self-test, 3 contract
validation, 4 integration. The embedding uses the numeric value
directly (`Nat`), with these named constants. -/
def VerificationStage.NONE : Nat := 0

def VerificationStage.AST_SECURITY : Nat := 1

def VerificationStage.SELF_TEST : Nat := 2

def VerificationStage.CONTRACT_VALID : Nat := 3

def VerificationStage.INTEGRATION : Nat := 4

/-- `ToolArtifact` (models.py:41-62). The fields after `status` mirror
spec §3's artifact attributes (category, indicator tag, data-type tag,
contract identifier, declared capabilities, verification stage reached):
they are written by `update_schema` and by the verification-field updates
in gateway.py:293-312 / synthesizer.py:300-319, but are missing from the
models.py under src/, so they are modelled from the spec. -/
structure ToolArtifact where
  id : Nat
  name : String
  semantic_version : String
  file_path : String
  content_hash : String
  code_content : String
  args_schema : List (String × String)
  permissions : List String
  status : ToolStatus
  category : Option String
  indicator : Option String
  data_type : Option String
  input_requirements : List String
  capabilities : List String
  contract_id : Option String
  verification_stage : Option Nat
deriving Repr, DecidableEq

/-- A freshly registered artifact (registry.py:98-108): the spec-modelled
metadata fields start empty. -/
def baseTool (id : Nat) (name version path hash code : String)
    (schema : List (String × String)) (perms : List String) : ToolArtifact :=
  { id := id
    name := name
    semantic_version := version
    file_path := path
    content_hash := hash
    code_content := code
    args_schema := schema
    permissions := perms
    status := ToolStatus.provisional
    category := none
    indicator := none
    data_type := none
    input_requirements := []
    capabilities := []
    contract_id := none
    verification_stage := none }

/-- `ExecutionTrace` (models.py:67-89), restricted to the fields the
embedded operations construct and read. -/
structure ExecutionTrace where
  trace_id : String
  task_id : String
  input_args : List (String × String)
  output_repr : String
  exit_code : Int
  std_out : Option String
  std_err : Option String
  execution_time_ms : Nat
deriving Repr, DecidableEq

/-- `ErrorReport` (models.py:94-103). -/
structure ErrorReport where
  trace_id : String
  error_type : String
  root_cause : String
deriving Repr, DecidableEq

/-- `BatchMergeRecord` (models.py:125-135); the `regression_stats` dict
written by the deduplicator (merger.py:116-126) is flattened into its
four concrete entries. -/
structure BatchMergeRecord where
  source_tool_ids : List Nat
  canonical_tool_id : Option Nat
  strategy : String
  contract_id : String
  deprecated_count : Nat
  kept_tool_name : String
  kept_tool_version : String
deriving Repr, DecidableEq

-- ---------------------------------------------------------------------
-- Contract catalog (src/core/contracts.py)
-- ---------------------------------------------------------------------

/-- `OutputType` (contracts.py:14-22). -/
inductive OutputType
  | numeric
  | dict
  | dataframe
  | list
  | boolean
  | string
  | anyOut
deriving Repr, DecidableEq

/-- A value in the `output_constraints` dict (the catalog uses only
integers for `min`/`max` and booleans for `allow_negative`). -/
inductive ConstraintVal
  | intVal (i : Int)
  | boolVal (b : Bool)
deriving Repr, DecidableEq

/-- `ToolContract` (contracts.py:25-43). -/
structure ToolContract where
  contract_id : String
  category : String
  description : String
  input_types : List (String × String)
  required_inputs : List String
  output_type : OutputType
  output_constraints : List (String × ConstraintVal)
  required_keys : List String
  allow_none : Bool
  allow_nan : Bool
deriving Repr, DecidableEq

/-- The dataclass defaults of `ToolContract` (contracts.py:33-43); each
catalog entry overrides the fields its literal sets. -/
def contractBase (cid cat desc : String) : ToolContract :=
  { contract_id := cid
    category := cat
    description := desc
    input_types := []
    required_inputs := []
    output_type := OutputType.anyOut
    output_constraints := []
    required_keys := []
    allow_none := false
    allow_nan := false }

/-- The `CONTRACTS` table (contracts.py:47-203), in insertion order. -/
def CONTRACTS : List (String × ToolContract) :=
  [ ("fetch_financial",
     { contractBase "fetch_financial" "fetch"
         "Fetch financial statement data (net income, revenue, etc.)" with
       input_types := [("symbol", "str"), ("period", "str")]
       required_inputs := ["symbol"]
       output_type := OutputType.numeric
       output_constraints := [("allow_negative", ConstraintVal.boolVal true)] })
  , ("fetch_quote",
     { contractBase "fetch_quote" "fetch" "Fetch real-time market quote" with
       input_types := [("symbol", "str")]
       required_inputs := ["symbol"]
       output_type := OutputType.numeric
       output_constraints := [("min", ConstraintVal.intVal 0)] })
  , ("fetch_price",
     { contractBase "fetch_price" "fetch" "Fetch stock/ETF/index price data" with
       input_types := [("symbol", "str"), ("start", "str"), ("end", "str")]
       required_inputs := ["symbol"]
       output_type := OutputType.numeric
       output_constraints := [("min", ConstraintVal.intVal 0)] })
  , ("fetch_ohlcv",
     { contractBase "fetch_ohlcv" "fetch" "Fetch OHLCV historical data" with
       input_types := [("symbol", "str"), ("start", "str"), ("end", "str")]
       required_inputs := ["symbol"]
       output_type := OutputType.dataframe
       required_keys := ["Open", "High", "Low", "Close", "Volume"] })
  , ("fetch_list",
     { contractBase "fetch_list" "fetch" "Fetch list data (dividends, etc.)" with
       input_types := [("symbol", "str")]
       required_inputs := ["symbol"]
       output_type := OutputType.list })
  , ("calc_rsi",
     { contractBase "calc_rsi" "calculation" "Calculate RSI indicator" with
       input_types := [("prices", "list"), ("period", "int")]
       required_inputs := ["prices"]
       output_type := OutputType.numeric
       output_constraints :=
         [("min", ConstraintVal.intVal 0), ("max", ConstraintVal.intVal 100)] })
  , ("calc_ma",
     { contractBase "calc_ma" "calculation" "Calculate moving average" with
       input_types := [("prices", "list"), ("window", "int")]
       required_inputs := ["prices"]
       output_type := OutputType.numeric
       output_constraints := [("min", ConstraintVal.intVal 0)] })
  , ("calc_bollinger",
     { contractBase "calc_bollinger" "calculation" "Calculate Bollinger Bands" with
       input_types := [("prices", "list"), ("window", "int"), ("num_std", "float")]
       required_inputs := ["prices"]
       output_type := OutputType.dict
       required_keys := ["upper", "middle", "lower"] })
  , ("calc_macd",
     { contractBase "calc_macd" "calculation" "Calculate MACD indicator" with
       input_types :=
         [("prices", "list"), ("fast_period", "int"), ("slow_period", "int"),
          ("signal_period", "int")]
       required_inputs := ["prices"]
       output_type := OutputType.dict
       required_keys := ["macd", "signal", "histogram"] })
  , ("calc_volatility",
     { contractBase "calc_volatility" "calculation" "Calculate price volatility" with
       input_types := [("prices", "list"), ("window", "int")]
       required_inputs := ["prices"]
       output_type := OutputType.numeric
       output_constraints := [("min", ConstraintVal.intVal 0)] })
  , ("calc_kdj",
     { contractBase "calc_kdj" "calculation" "Calculate KDJ indicator" with
       input_types :=
         [("high", "list"), ("low", "list"), ("close", "list"),
          ("k_period", "int"), ("d_period", "int")]
       required_inputs := ["high", "low", "close"]
       output_type := OutputType.dict
       required_keys := ["k", "d", "j"] })
  , ("calc_drawdown",
     { contractBase "calc_drawdown" "calculation" "Calculate maximum drawdown" with
       input_types := [("prices", "list")]
       required_inputs := ["prices"]
       output_type := OutputType.numeric
       output_constraints :=
         [("min", ConstraintVal.intVal 0), ("max", ConstraintVal.intVal 1)] })
  , ("calc_correlation",
     { contractBase "calc_correlation" "calculation"
         "Calculate correlation between two price series" with
       input_types := [("prices1", "list"), ("prices2", "list")]
       required_inputs := ["prices1", "prices2"]
       output_type := OutputType.numeric
       output_constraints :=
         [("min", ConstraintVal.intVal (-1)), ("max", ConstraintVal.intVal 1)] })
  , ("comp_signal",
     { contractBase "comp_signal" "composite"
         "Generate trading signal based on conditions" with
       input_types := [("prices", "list")]
       required_inputs := ["prices"]
       output_type := OutputType.boolean })
  , ("comp_divergence",
     { contractBase "comp_divergence" "composite" "Detect volume-price divergence" with
       input_types := [("prices", "list"), ("volumes", "list")]
       required_inputs := ["prices", "volumes"]
       output_type := OutputType.boolean })
  , ("comp_portfolio",
     { contractBase "comp_portfolio" "composite" "Calculate portfolio return" with
       input_types := [("symbols", "list"), ("weights", "list")]
       required_inputs := ["symbols"]
       output_type := OutputType.numeric
       output_constraints := [("allow_negative", ConstraintVal.boolVal true)] })
  , ("comp_conditional_return",
     { contractBase "comp_conditional_return" "composite"
         "Calculate conditional return (after signal)" with
       input_types := [("prices", "list"), ("signal_threshold", "float")]
       required_inputs := ["prices"]
       output_type := OutputType.numeric
       output_constraints := [("allow_negative", ConstraintVal.boolVal true)] })
  ]

/-- `TASK_CONTRACT_MAPPING` (contracts.py:207-233): task id → contract id. -/
def TASK_CONTRACT_MAPPING : List (String × String) :=
  [ ("fetch_001", "fetch_financial"), ("fetch_002", "fetch_quote")
  , ("fetch_003", "fetch_financial"), ("fetch_004", "fetch_price")
  , ("fetch_005", "fetch_price"), ("fetch_006", "fetch_financial")
  , ("fetch_007", "fetch_list"), ("fetch_008", "fetch_price")
  , ("calc_001", "calc_rsi"), ("calc_002", "calc_ma")
  , ("calc_003", "calc_bollinger"), ("calc_004", "calc_macd")
  , ("calc_005", "calc_volatility"), ("calc_006", "calc_kdj")
  , ("calc_007", "calc_drawdown"), ("calc_008", "calc_correlation")
  , ("comp_001", "comp_signal"), ("comp_002", "comp_divergence")
  , ("comp_003", "comp_portfolio"), ("comp_004", "comp_conditional_return")
  ]

/-- Python `dict.get` on an association list. -/
def alistGet {α : Type} (m : List (String × α)) (k : String) : Option α :=
  (m.find? (fun kv => kv.1 == k)).map (·.2)

/-- `get_contract(task_id)` (contracts.py:236-241). Note that its argument
is a TASK id, keyed through `TASK_CONTRACT_MAPPING`. -/
def get_contract (task_id : String) : Option ToolContract :=
  match alistGet TASK_CONTRACT_MAPPING task_id with
  | some cid => alistGet CONTRACTS cid
  | none => none

/-- `get_contract_by_id(contract_id)` (contracts.py:244-246). -/
def get_contract_by_id (contract_id : String) : Option ToolContract :=
  alistGet CONTRACTS contract_id

/-- Direct index `CONTRACTS[...]` used by the inference rules; the keys
used there all exist, so the default branch is unreachable. -/
def contractAt (cid : String) : ToolContract :=
  (alistGet CONTRACTS cid).getD (contractBase "" "" "")

/-- `infer_contract_from_query(query, category)` (contracts.py:249-290).
Note the REQUIRED second positional argument `category`. -/
def infer_contract_from_query (query category : String) : Option ToolContract :=
  let ql := pyLower query
  if category == "fetch" then
    if ["net income", "revenue", "earnings", "profit"].any (pyContains ql) then
      some (contractAt "fetch_financial")
    else if ["quote", "real-time", "realtime"].any (pyContains ql) then
      some (contractAt "fetch_quote")
    else if pyContains ql "dividend" then some (contractAt "fetch_list")
    else some (contractAt "fetch_price")
  else if category == "calculation" then
    if pyContains ql "rsi" then some (contractAt "calc_rsi")
    else if pyContains ql "moving average" || pyContains ql " ma" || pyContains ql "ma " then
      some (contractAt "calc_ma")
    else if pyContains ql "bollinger" then some (contractAt "calc_bollinger")
    else if pyContains ql "macd" then some (contractAt "calc_macd")
    else if pyContains ql "volatility" then some (contractAt "calc_volatility")
    else if pyContains ql "kdj" then some (contractAt "calc_kdj")
    else if pyContains ql "drawdown" then some (contractAt "calc_drawdown")
    else if pyContains ql "correlation" then some (contractAt "calc_correlation")
    else none
  else if category == "composite" then
    if ["signal", "if ", "return true", "return false"].any (pyContains ql) then
      some (contractAt "comp_signal")
    else if pyContains ql "divergence" then some (contractAt "comp_divergence")
    else if pyContains ql "portfolio" then some (contractAt "comp_portfolio")
    else if pyContains ql "after" && (["rsi", "return"].any (pyContains ql)) then
      some (contractAt "comp_conditional_return")
    else none
  else none

-- ---------------------------------------------------------------------
-- Constraints store (src/core/constraints.py) and capability data
-- (src/core/capabilities.py)
-- ---------------------------------------------------------------------

/-- `CategoryConstraints` (constraints.py:22-26). -/
structure CategoryConstraints where
  allowed_modules : List String
  banned_modules : List String
deriving Repr, DecidableEq

/-- `Constraints` (constraints.py:45-54), restricted to the capability
rules that the executor and verifier consult; the numeric execution /
verification / gate limits are not read by any embedded operation. The
concrete values normally come from `configs/constraints.yaml` (spec §6),
a file outside the repository source, so operations are parameterized
over a `Constraints` value. -/
structure Constraints where
  capabilities : List (String × CategoryConstraints)
  always_banned_modules : List String
  always_banned_calls : List String
  always_banned_attributes : List String
deriving Repr, DecidableEq

/-- `Constraints.get_allowed_modules` (constraints.py:125-131): fall back
to the `calculation` category when the category is unknown. -/
def Constraints.get_allowed_modules (c : Constraints) (category : String) : List String :=
  match alistGet c.capabilities category with
  | some cc => cc.allowed_modules
  | none =>
      match alistGet c.capabilities "calculation" with
      | some cc => cc.allowed_modules
      | none => []

/-- `Constraints.get_banned_modules` (constraints.py:133-139): the
always-banned set plus the category-specific bans (no fallback). -/
def Constraints.get_banned_modules (c : Constraints) (category : String) : List String :=
  c.always_banned_modules ++
    (match alistGet c.capabilities category with
     | some cc => cc.banned_modules
     | none => [])

/-- `ALWAYS_BANNED_MODULES` (capabilities.py:104-110). -/
def ALWAYS_BANNED_MODULES : List String :=
  ["os", "sys", "subprocess", "shutil", "builtins",
   "importlib", "ctypes", "socket", "http", "urllib",
   "pickle", "shelve", "multiprocessing", "threading",
   "pty", "tty", "fcntl", "posix", "nt", "msvcrt",
   "code", "codeop", "commands", "popen2", "signal"]

/-- `ALWAYS_BANNED_CALLS` (capabilities.py:114-120). -/
def ALWAYS_BANNED_CALLS : List String :=
  ["eval", "exec", "compile", "__import__",
   "globals", "locals", "vars", "dir",
   "getattr", "setattr", "delattr",
   "hasattr", "open", "file", "input", "raw_input",
   "execfile", "reload", "breakpoint"]

/-- `ALWAYS_BANNED_ATTRIBUTES` (capabilities.py:124-131). -/
def ALWAYS_BANNED_ATTRIBUTES : List String :=
  ["__class__", "__bases__", "__subclasses__", "__mro__",
   "__dict__", "__globals__", "__code__", "__builtins__",
   "__getattribute__", "__setattr__", "__delattr__",
   "__reduce__", "__reduce_ex__", "__getstate__", "__setstate__",
   "__init_subclass__", "__class_getitem__",
   "func_globals", "func_code"]

/-- `CALC_BANNED_MODULES` (capabilities.py:135-138). -/
def CALC_BANNED_MODULES : List String :=
  ["yfinance", "akshare", "talib", "requests", "urllib3", "httpx", "aiohttp"]

/-- Allowed modules of the CALCULATE capability (capabilities.py:31-34). -/
def CALC_CAP_MODULES : List String :=
  ["pandas", "numpy", "datetime", "json", "math",
   "decimal", "collections", "re", "typing"]

/-- Allowed modules of the FETCH capability (capabilities.py:35-38). -/
def FETCH_CAP_MODULES : List String :=
  ["pandas", "numpy", "datetime", "json", "yfinance", "hashlib", "typing", "warnings"]

/-- `get_category_capabilities` (capabilities.py:93-100), as the
capability value strings stored on registered tools. -/
def get_category_capabilities (category : String) : List String :=
  if category == "fetch" then ["fetch", "network_read", "cache_write", "calculate"]
  else if category == "calculation" then ["calculate"]
  else if category == "composite" then ["calculate"]
  else ["calculate"]

/-- A `Constraints` value mirroring the capability data of
src/core/capabilities.py (the shipped `configs/constraints.yaml` is not
part of the repository source; spec §6 says it supplies exactly these
per-category allowed/banned sets and the always-banned lists). Used as a
concrete fixture in witnesses. -/
def sampleConstraints : Constraints :=
  { capabilities :=
      [ ("calculation",
         { allowed_modules := CALC_CAP_MODULES, banned_modules := CALC_BANNED_MODULES })
      , ("fetch",
         { allowed_modules := FETCH_CAP_MODULES ++ ["pathlib"], banned_modules := [] })
      , ("composite",
         { allowed_modules := CALC_CAP_MODULES, banned_modules := [] })
      ]
    always_banned_modules := ALWAYS_BANNED_MODULES
    always_banned_calls := ALWAYS_BANNED_CALLS
    always_banned_attributes := ALWAYS_BANNED_ATTRIBUTES }

-- ---------------------------------------------------------------------
-- Sandboxed executor: static analyzer (src/core/executor.py)
-- ---------------------------------------------------------------------

/-- A function argument as seen by `ast.walk` inside a `FunctionDef`
(gateway.py:320-338): its name and the shape of its annotation. -/
inductive AnnShape
  | nameAnn (s : String)
  | constAnn (s : String)
  | otherAnn
  | noAnn
deriving Repr, DecidableEq

/-- The AST nodes that `static_check_with_rules` (executor.py:153-190)
and `_extract_args_schema` (gateway.py:314-342) inspect during
`ast.walk`. Nodes of any other type fall through every `elif` branch, and
are collapsed into `other`. -/
inductive AstNode
  | importNode (names : List String)
  | importFrom (module : Option String)
  | callName (id : String)
  | callAttr (attr : String)
  | attributeNode (attr : String)
  | constantStr (value : String)
  | functionDef (args : List (String × AnnShape))
  | other
deriving Repr, DecidableEq

/-- A Python payload as the analyzer sees it: the surface text (used by
the regex helpers) paired with the outcome of `ast.parse` on the
encoding-normalized text — a syntax-error message, or the node list in
`ast.walk` order. Parsing itself is Python's `ast` library, external to
the repository. -/
structure PyCode where
  text : String
  parsed : Except String (List AstNode)
deriving Repr

/-- The effective rule sets after the defaulting/merging prologue of
`static_check_with_rules` (executor.py:129-143). -/
structure CheckRules where
  allowed : List String
  banned : List String
  calls : List String
  attrs : List String
deriving Repr, DecidableEq

namespace ToolExecutor

/-- `ToolExecutor.BANNED_MODULES` (executor.py:44-47). -/
def BANNED_MODULES (c : Constraints) : List String := c.always_banned_modules

/-- `ToolExecutor.BANNED_CALLS` (executor.py:49-52). -/
def BANNED_CALLS (c : Constraints) : List String := c.always_banned_calls

/-- `ToolExecutor.BANNED_ATTRIBUTES` (executor.py:54-57). -/
def BANNED_ATTRIBUTES (c : Constraints) : List String := c.always_banned_attributes

/-- `ToolExecutor.ALLOWED_MODULES` (executor.py:59-66): the union of the
allowed modules of the `calculation`, `fetch` and `composite` categories. -/
def ALLOWED_MODULES (c : Constraints) : List String :=
  c.get_allowed_modules "calculation" ++ c.get_allowed_modules "fetch"
    ++ c.get_allowed_modules "composite"

/-- The argument defaulting of `static_check_with_rules`
(executor.py:129-143): a missing set falls back to the executor default;
a supplied banned set is unioned with the default. -/
def mergeRules (c : Constraints) (allowed_modules banned_modules banned_calls
    banned_attributes : Option (List String)) : CheckRules :=
  { allowed := allowed_modules.getD (ALLOWED_MODULES c)
    banned :=
      match banned_modules with
      | none => BANNED_MODULES c
      | some extra => BANNED_MODULES c ++ extra
    calls :=
      match banned_calls with
      | none => BANNED_CALLS c
      | some extra => BANNED_CALLS c ++ extra
    attrs :=
      match banned_attributes with
      | none => BANNED_ATTRIBUTES c
      | some extra => BANNED_ATTRIBUTES c ++ extra }

/-- `module = alias.name.split('.')[0]` (executor.py:157). -/
def headMod (nm : String) : String := (pySplit nm '.').headD nm

/-- One alias of an `ast.Import` (executor.py:155-161): banned first,
then membership of the allowed set. -/
def checkAlias (R : CheckRules) (nm : String) : Option String :=
  let m := headMod nm
  if m ∈ R.banned then some ("Banned import: " ++ m)
  else if m ∈ R.allowed then none
  else some ("Unallowed import: " ++ m)

/-- The per-node body of the `ast.walk` loop (executor.py:153-190),
returning the violation message if the node fails. String literals are
scanned against the banned calls and then the banned attributes (the
Python set union is iterated; only whether some banned identifier occurs
is deterministic, and the embedding fixes the scan order). -/
def checkNode (R : CheckRules) : AstNode → Option String
  | AstNode.importNode names => names.findSome? (checkAlias R)
  | AstNode.importFrom mo =>
      match mo with
      | none => none
      | some nm =>
          let m := headMod nm
          if m ∈ R.banned then some ("Banned import from: " ++ m)
          else if m ∈ R.allowed then none
          else some ("Unallowed import from: " ++ m)
  | AstNode.callName id => if id ∈ R.calls then some ("Banned call: " ++ id) else none
  | AstNode.callAttr a => if a ∈ R.calls then some ("Banned method call: " ++ a) else none
  | AstNode.attributeNode a =>
      if a ∈ R.attrs then some ("Banned attribute access: " ++ a) else none
  | AstNode.constantStr s =>
      (R.calls ++ R.attrs).findSome?
        (fun b => if pyContains s b then
            some ("Suspicious string literal containing: " ++ b) else none)
  | AstNode.functionDef _ => none
  | AstNode.other => none

/-- `ToolExecutor.static_check_with_rules` (executor.py:105-192): merge
the rule sets, fail on a syntax error, otherwise return the first
violation found while walking the tree. -/
def static_check_with_rules (c : Constraints) (code : PyCode)
    (allowed_modules banned_modules banned_calls banned_attributes :
      Option (List String)) : Bool × Option String :=
  let R := mergeRules c allowed_modules banned_modules banned_calls banned_attributes
  match code.parsed with
  | Except.error e => (false, some ("Syntax Error: " ++ e))
  | Except.ok nodes =>
      match nodes.findSome? (checkNode R) with
      | some msg => (false, some msg)
      | none => (true, none)

/-- `ToolExecutor.static_check` (executor.py:93-103): the default rules. -/
def static_check (c : Constraints) (code : PyCode) : Bool × Option String :=
  static_check_with_rules c code none none none none

/-- The security gate at the top of `ToolExecutor.execute`
(executor.py:214-228): if the default static check fails, execution stops
with a security-exception trace (the subprocess part of `execute` is
external to the analyzer and is not reached). Returns the rejection trace,
or `none` when execution proceeds to the sandbox. -/
def executeStaticGate (c : Constraints) (code : PyCode) (args : List (String × String))
    (task_id : String) : Option ExecutionTrace :=
  match static_check c code with
  | (true, _) => none
  | (false, err) =>
      some { trace_id := "t_security"
             task_id := task_id
             input_args := args
             output_repr := ""
             exit_code := 1
             std_out := some ""
             std_err := some ("SecurityException: " ++ err.getD "")
             execution_time_ms := 0 }

end ToolExecutor

-- ---------------------------------------------------------------------
-- Tool registry (src/core/registry.py)
-- ---------------------------------------------------------------------

/-- The registry's durable state: the `tool_artifacts` table in insertion
order, the on-disk artifact files (path → payload), and the next
autoincrement id. -/
structure RegistryState where
  tools : List ToolArtifact
  files : List (String × String)
  nextId : Nat
deriving Repr, DecidableEq

namespace ToolRegistry

/-- `_generate_filename` (registry.py:31-34) with the directm prefix of
registry.py:91,101: the stored `file_path` is relative to the artifacts
root, i.e. `<bootstrap|generated>/<name>_v<version>_<hash8>.py`. -/
def generateFilePath (isBootstrap : Bool) (name version content_hash : String) : String :=
  (if isBootstrap then "bootstrap/" else "generated/")
    ++ name ++ "_v" ++ version ++ "_" ++ pyTake 8 content_hash ++ ".py"

/-- `ToolRegistry.register` (registry.py:36-114), parameterized by the
content-hash function (`hashlib.sha256(...).hexdigest()`, external):
dedup by content hash, else bump the per-name version (Python computes
the latest as `max(..., key=lambda t: t.semantic_version)`, a STRING
comparison), write the payload to disk, insert the metadata row. -/
def register (hash : String → String) (st : RegistryState) (name code : String)
    (args_schema : List (String × String)) (permissions : List String)
    (is_bootstrap : Bool) : ToolArtifact × RegistryState :=
  let content_hash := hash code
  match st.tools.find? (fun t => t.content_hash == content_hash) with
  | some existing => (existing, st)
  | none =>
      let same_name := st.tools.filter (fun t => t.name == name)
      let version :=
        match pyMaxBy (fun t => t.semantic_version) same_name with
        | some latest => bumpPatch latest.semantic_version
        | none => "0.1.0"
      let path := generateFilePath is_bootstrap name version content_hash
      let perms := if permissions.isEmpty then [Permission.CALC_ONLY] else permissions
      let schema := args_schema
      let tool := baseTool st.nextId name version path content_hash code schema perms
      (tool,
       { tools := st.tools ++ [tool]
         files := st.files ++ [(path, code)]
         nextId := st.nextId + 1 })

/-- `ToolRegistry.get_by_name` (registry.py:116-127): the "latest"
version, again by Python string `max`. -/
def get_by_name (st : RegistryState) (name : String) : Option ToolArtifact :=
  pyMaxBy (fun t => t.semantic_version) (st.tools.filter (fun t => t.name == name))

/-- `ToolRegistry.get_by_hash` (registry.py:129-134). -/
def get_by_hash (st : RegistryState) (content_hash : String) : Option ToolArtifact :=
  st.tools.find? (fun t => t.content_hash == content_hash)

/-- `ToolRegistry.get_by_id` (registry.py:136-139). -/
def get_by_id (st : RegistryState) (tool_id : Nat) : Option ToolArtifact :=
  st.tools.find? (fun t => t.id == tool_id)

/-- `ToolRegistry.update_status` (registry.py:149-158). -/
def update_status (st : RegistryState) (tool_id : Nat) (status : ToolStatus) :
    RegistryState :=
  { st with tools := st.tools.map (fun t =>
      if t.id == tool_id then { t with status := status } else t) }

/-- Modelled from the spec: `ToolRegistry.update_schema` is called by
gateway.py:241 and synthesizer.py:244,431 and mocked in the tests, but is
absent from src/core/registry.py. Spec §4.2 gives its signature
`update_schema(id, category, indicator, data_type, input_requirements)`;
a `none` argument means the keyword was not supplied and leaves the field
unchanged. -/
def update_schema (st : RegistryState) (tool_id : Nat) (category : Option String)
    (indicator : Option String) (data_type : Option String)
    (input_requirements : Option (List String)) : RegistryState :=
  { st with tools := st.tools.map (fun t =>
      if t.id == tool_id then
        { t with
          category := match category with | some c => some c | none => t.category
          indicator := match indicator with | some i => some i | none => t.indicator
          data_type := match data_type with | some d => some d | none => t.data_type
          input_requirements :=
            match input_requirements with | some r => r | none => t.input_requirements }
      else t) }

/-- Modelled from the spec: `ToolRegistry.find_by_contract_id` is called
by merger.py:47 and batch_manager.py:216 and mocked in the tests, but is
absent from src/core/registry.py. Spec §4.2:
`find_by_contract_id(contract_id) → [artifact]`. -/
def find_by_contract_id (st : RegistryState) (contract_id : String) :
    List ToolArtifact :=
  st.tools.filter (fun t => t.contract_id == some contract_id)

/-- The direct-session update `_update_tool_verification_fields` shared
verbatim by gateway.py:293-312 and synthesizer.py:300-319: set the
capability list, contract id and verification stage of one artifact. -/
def updateVerificationFields (st : RegistryState) (tool_id : Nat)
    (capabilities : List String) (contract_id : Option String)
    (verification_stage : Nat) : RegistryState :=
  { st with tools := st.tools.map (fun t =>
      if t.id == tool_id then
        { t with
          capabilities := capabilities
          contract_id := contract_id
          verification_stage := some verification_stage }
      else t) }

end ToolRegistry

-- ---------------------------------------------------------------------
-- Verifier report shape (src/core/verifier.py) and the AST_SECURITY stage
-- ---------------------------------------------------------------------

/-- `StageResult` (verifier.py:40-46): stage number, result value
("pass"/"fail"/"skip"), message. -/
structure StageResult where
  stage : Nat
  result : String
  message : String
deriving Repr, DecidableEq

/-- `VerificationReport` (verifier.py:49-65). -/
structure VerificationReport where
  tool_name : String
  category : String
  stages : List StageResult
  final_stage : Nat
  passed : Bool
deriving Repr, DecidableEq

/-- `MultiStageVerifier._verify_ast_security` (verifier.py:168-205):
stage 1 calls `static_check_with_rules` with the CATEGORY-specific
allowed/banned modules from the constraints store (the later stages run
the subprocess sandbox and are external to the static analyzer). -/
def verifyAstSecurity (c : Constraints) (category : String) (code : PyCode) :
    StageResult :=
  let res := ToolExecutor.static_check_with_rules c code
    (some (c.get_allowed_modules category))
    (some (c.get_banned_modules category))
    (some c.always_banned_calls)
    (some c.always_banned_attributes)
  if res.1 then
    { stage := VerificationStage.AST_SECURITY
      result := "pass"
      message := "AST security check passed" }
  else
    { stage := VerificationStage.AST_SECURITY
      result := "fail"
      message := "AST security check failed: " ++ (res.2.getD "") }

-- ---------------------------------------------------------------------
-- Evolution gates (src/core/gates.py)
-- ---------------------------------------------------------------------

/-- `EvolutionGate` (gates.py:22-26). -/
inductive EvolutionGate
  | autoTier
  | checkpointTier
  | approvalTier
deriving Repr, DecidableEq

/-- `GateMode` (gates.py:29-32). -/
inductive GateMode
  | dev
  | prod
deriving Repr, DecidableEq

/-- `ACTION_GATES` (gates.py:36-54). -/
def ACTION_GATES : List (String × EvolutionGate) :=
  [ ("read_cached_data", EvolutionGate.autoTier)
  , ("execute_calculation", EvolutionGate.autoTier)
  , ("list_tools", EvolutionGate.autoTier)
  , ("get_tool_info", EvolutionGate.autoTier)
  , ("create_tool", EvolutionGate.checkpointTier)
  , ("modify_tool", EvolutionGate.checkpointTier)
  , ("execute_fetch", EvolutionGate.checkpointTier)
  , ("refine_tool", EvolutionGate.checkpointTier)
  , ("persist_tool", EvolutionGate.approvalTier)
  , ("delete_tool", EvolutionGate.approvalTier)
  , ("modify_verification_rules", EvolutionGate.approvalTier)
  , ("modify_constraints", EvolutionGate.approvalTier)
  ]

/-- `EvolutionGatekeeper.classify` (gates.py:147-157): unknown actions
default to the CHECKPOINT tier. -/
def classifyAction (action : String) : EvolutionGate :=
  (alistGet ACTION_GATES action).getD EvolutionGate.checkpointTier

/-- Checkpoint status (`pending`/`completed`/`failed`, gates.py:84,97,108). -/
inductive CpStatus
  | pending
  | completed
  | failed
deriving Repr, DecidableEq

/-- A checkpoint file (gates.py:78-85), identified in the embedding by
its index in the checkpoint directory. -/
structure Checkpoint where
  action : String
  status : CpStatus
  error : Option String
deriving Repr, DecidableEq

/-- One line of `gateway_attempts.jsonl` (gateway.py:94-101). -/
structure LogEntry where
  action : String
  tool_name : String
  category : String
  success : Bool
deriving Repr, DecidableEq

/-- The durable state shared by registry, gateway and gates: the registry,
the gateway attempts log (append-only), and the checkpoint directory. -/
structure SystemState where
  registry : RegistryState
  attemptsLog : List LogEntry
  checkpoints : List Checkpoint
deriving Repr, DecidableEq

/-- `CheckpointManager.create_checkpoint` (gates.py:65-89): append a
pending checkpoint, return its id. -/
def createCheckpoint (st : SystemState) (action : String) : Nat × SystemState :=
  (st.checkpoints.length,
   { st with checkpoints :=
       st.checkpoints ++ [{ action := action, status := CpStatus.pending, error := none }] })

/-- `CheckpointManager.mark_complete` (gates.py:91-100). -/
def markComplete (st : SystemState) (cpId : Nat) : SystemState :=
  { st with checkpoints :=
      updateAt (fun cp => { cp with status := CpStatus.completed }) cpId st.checkpoints }

/-- `CheckpointManager.mark_failed` (gates.py:102-112). -/
def markFailed (st : SystemState) (cpId : Nat) (err : String) : SystemState :=
  let upd := fun cp => { cp with status := CpStatus.failed, error := some err }
  { st with checkpoints := updateAt upd cpId st.checkpoints }

/-- `EvolutionGatekeeper.execute` (gates.py:196-273) for the pure
`lambda: None` callback the gateway passes (gateway.py:206), which never
raises: AUTO runs immediately; CHECKPOINT creates a checkpoint, runs the
callback and completes it; APPROVAL auto-approves in dev mode, and in
prod mode consults the approval callback/prompt (an external input,
passed as `approved`). The separate evolution-gates audit log is not
consulted by any claim and is not modelled. -/
def gatekeeperExecute (mode : GateMode) (approved : Bool) (st : SystemState)
    (action : String) : Bool × SystemState :=
  match classifyAction action with
  | EvolutionGate.autoTier => (true, st)
  | EvolutionGate.checkpointTier =>
      let (cpId, st) := createCheckpoint st action
      (true, markComplete st cpId)
  | EvolutionGate.approvalTier =>
      match mode with
      | GateMode.dev =>
          let (cpId, st) := createCheckpoint st action
          (true, markComplete st cpId)
      | GateMode.prod =>
          if approved then
            let (cpId, st) := createCheckpoint st action
            (true, markComplete st cpId)
          else (false, st)

-- ---------------------------------------------------------------------
-- Verification gateway (src/core/gateway.py)
-- ---------------------------------------------------------------------

/-- A raised Python exception, as the embedding surfaces it. -/
inductive PyErr
  | typeError (msg : String)
deriving Repr, DecidableEq

/-- Python's `\w` on ASCII: letters, digits, underscore. -/
def isWordChar (c : Char) : Bool := c.isAlphanum || c == '_'

/-- Match `def\s+(\w+)\s*\(` anchored at the start of a line
(gateway.py:146, synthesizer.py:29, verifier.py:165): literal `def`, at
least one whitespace, the captured identifier, optional whitespace, an
opening parenthesis. -/
def matchDefLine (cs : List Char) : Option String :=
  match cs with
  | 'd' :: 'e' :: 'f' :: rest =>
      let ws := rest.takeWhile (fun c => c.isWhitespace)
      if ws.isEmpty then none
      else
        let rest := rest.dropWhile (fun c => c.isWhitespace)
        let name := rest.takeWhile isWordChar
        if name.isEmpty then none
        else
          let rest := (rest.dropWhile isWordChar).dropWhile (fun c => c.isWhitespace)
          match rest with
          | '(' :: _ => some (String.mk name)
          | _ => none
  | _ => none

/-- `re.search(r'^def\s+(\w+)\s*\(', code, re.MULTILINE)`: the name on the
first line that begins a function definition. -/
def extractFunctionName (code : String) : Option String :=
  (pySplit code '\n').findSome? (fun line => matchDefLine line.data)

/-- `VerificationGateway._extract_args_schema` (gateway.py:314-342):
from the FIRST `FunctionDef` met during `ast.walk`, map each argument
except `self` to its annotation — the identifier of a `Name` annotation,
the value of a `Constant` annotation, `"Any"` otherwise; `{}` on a parse
error or when there is no function definition. -/
def extractArgsSchemaAst (code : PyCode) : List (String × String) :=
  match code.parsed with
  | Except.error _ => []
  | Except.ok nodes =>
      match nodes.findSome? (fun n =>
        match n with
        | AstNode.functionDef args => some args
        | _ => none) with
      | none => []
      | some args =>
          args.foldl (fun acc a =>
            if a.1 == "self" then acc
            else
              acc ++ [(a.1,
                match a.2 with
                | AnnShape.nameAnn s => s
                | AnnShape.constAnn s => s
                | AnnShape.otherAnn => "Any"
                | AnnShape.noAnn => "Any")]) []

/-- The contract-resolution prologue of `VerificationGateway.submit`
(gateway.py:149-153). Two facts of the source are embedded here:
`get_contract` is the TASK-id lookup of contracts.py:236-241 (not
`get_contract_by_id`), and the `task` branch calls
`infer_contract_from_query(task)` with a single argument although
contracts.py:249 declares `infer_contract_from_query(query, category)`
with no default — in Python that call raises `TypeError` before anything
is logged or checkpointed. -/
def resolveContract (contract : Option ToolContract) (contract_id : Option String)
    (task : Option String) : Except PyErr (Option ToolContract) :=
  if contract.isNone && truthy contract_id then
    Except.ok (get_contract (contract_id.getD ""))
  else if contract.isNone && truthy task then
    Except.error (PyErr.typeError
      "infer_contract_from_query() missing 1 required positional argument: category")
  else Except.ok contract

/-- `VerificationGateway._log_attempt` (gateway.py:85-110): append one
line to `gateway_attempts.jsonl`. -/
def logAttempt (st : SystemState) (action tool_name category : String)
    (success : Bool) : SystemState :=
  { st with attemptsLog := st.attemptsLog ++
      [{ action := action, tool_name := tool_name, category := category,
         success := success }] }

/-- `VerificationGateway._tool_exists` (gateway.py:285-291). -/
def toolExists (st : SystemState) (name : String) : Bool :=
  (ToolRegistry.get_by_name st.registry name).isSome

/-- `VerificationGateway.submit` (gateway.py:112-283). External
collaborators enter as parameters: `hash` is the registry's SHA-256;
`vres` is the outcome of `verifier.verify_all_stages` (which runs the
sandbox subprocess); `mode`/`approved` feed the gatekeeper as in
`gatekeeperExecute`. The steps, in source order: extract the function
name; resolve the contract (a raising step, see `resolveContract`); log
`SUBMIT` (success recorded as `False`); open the `submit_tool`
checkpoint; on verification failure mark it failed, log
`VERIFICATION_FAILED` and return `(False, None, report)`; otherwise
route through the gatekeeper unless `force` (denial marks the checkpoint
failed, logs `GATEKEEPER_DENIED` and returns `(False, None, report)`);
register with category-derived permissions; set the category via
`update_schema` and the capability/contract/stage fields via
`_update_tool_verification_fields`; complete the checkpoint; log
`REGISTERED` (success `True`); return `(True, tool, report)`. With the
spec-modelled `update_schema` present, no step after resolution can
raise, so the `except` branch (mark failed, log `ERROR`, re-raise) is
unreachable in the embedding. -/
def submit (hash : String → String) (mode : GateMode) (approved : Bool)
    (st : SystemState) (code : PyCode) (category : String)
    (contract : Option ToolContract) (contract_id : Option String)
    (task : Option String) (_task_id : String) (force : Bool)
    (vres : Bool × VerificationReport) :
    Except PyErr (Bool × Option ToolArtifact × VerificationReport) × SystemState :=
  let func_name := (extractFunctionName code.text).getD "unknown"
  match resolveContract contract contract_id task with
  | Except.error e => (Except.error e, st)
  | Except.ok rc =>
      let st := logAttempt st "SUBMIT" func_name category false
      let (cpId, st) := createCheckpoint st "submit_tool"
      let passed := vres.1
      let report := vres.2
      if !passed then
        let st := markFailed st cpId "Verification failed"
        let st := logAttempt st "VERIFICATION_FAILED" func_name category false
        (Except.ok (false, none, report), st)
      else
        let gateStep :=
          if force then (true, st)
          else
            let action := if toolExists st func_name then "modify_tool" else "create_tool"
            gatekeeperExecute mode approved st action
        let approvedNow := gateStep.1
        let st := gateStep.2
        if !approvedNow then
          let st := markFailed st cpId "Gatekeeper denied"
          let st := logAttempt st "GATEKEEPER_DENIED" func_name category false
          (Except.ok (false, none, report), st)
        else
          let permissions :=
            if category == "fetch" then [Permission.NETWORK_READ, Permission.CALC_ONLY]
            else [Permission.CALC_ONLY]
          let regOut := ToolRegistry.register hash st.registry func_name code.text
            (extractArgsSchemaAst code) permissions false
          let tool := regOut.1
          let st := { st with registry := regOut.2 }
          let capabilities := get_category_capabilities category
          let reg1 :=
            ToolRegistry.update_schema st.registry tool.id (some category) none none none
          let st := { st with registry := reg1 }
          let reg2 :=
            ToolRegistry.updateVerificationFields st.registry tool.id capabilities
              (rc.map (fun contract => contract.contract_id)) report.final_stage
          let st := { st with registry := reg2 }
          let st := markComplete st cpId
          let st := logAttempt st "REGISTERED" func_name category true
          (Except.ok (true, some tool, report), st)

/-- `get_registration_stats` (gateway.py:371-396): line counts over
`gateway_attempts.jsonl`. -/
structure RegStats where
  total : Nat
  success : Nat
  failed : Nat
deriving Repr, DecidableEq

/-- `get_registration_stats` totals (the derived `success_rate` field is
`success / total` and adds nothing checkable beyond these). -/
def get_registration_stats (st : SystemState) : RegStats :=
  let total := st.attemptsLog.length
  let success := (st.attemptsLog.filter (fun e => e.success)).length
  { total := total, success := success, failed := total - success }

-- ---------------------------------------------------------------------
-- Synthesizer (src/evolution/synthesizer.py)
-- ---------------------------------------------------------------------

/-- `INDICATOR_KEYWORDS` (synthesizer.py:34-45), in insertion order. -/
def INDICATOR_KEYWORDS : List (String × List String) :=
  [ ("rsi", ["rsi", "相对强弱", "relative strength"])
  , ("macd", ["macd", "指数平滑异同"])
  , ("bollinger", ["bollinger", "布林", "boll"])
  , ("kdj", ["kdj", "随机指标"])
  , ("ma", ["moving average", "ma", "移动平均"])
  , ("volatility", ["volatility", "波动率"])
  , ("drawdown", ["drawdown", "回撤", "max_drawdown"])
  , ("correlation", ["correlation", "相关系数", "相关性"])
  , ("volume_price", ["volume price", "量价", "divergence"])
  , ("portfolio", ["portfolio", "组合", "weight"])
  ]

/-- `extract_indicator` (synthesizer.py:48-54). -/
def extract_indicator (task code : String) : Option String :=
  let text := pyLower (task ++ " " ++ code)
  INDICATOR_KEYWORDS.findSome? (fun p =>
    if p.2.any (pyContains text) then some p.1 else none)

/-- Python `str` of a `dict[str, str]`, e.g. `{'prices': 'list'}`; used by
`extract_data_type`'s `str(args_schema)`. -/
def pyDictRepr (s : List (String × String)) : String :=
  "\x7b" ++ String.intercalate ", "
    (s.map (fun kv => "'" ++ kv.1 ++ "': '" ++ kv.2 ++ "'")) ++ "\x7d"

/-- `extract_data_type` (synthesizer.py:57-66). -/
def extract_data_type (task : String) (args_schema : List (String × String)) : String :=
  let tl := pyLower task
  let sl := pyLower (pyDictRepr args_schema)
  if ["financial", "财务", "net income", "净利润", "revenue", "roe"].any (pyContains tl)
  then "financial"
  else if ["volume", "成交量", "量"].any (pyContains tl) then "volume"
  else if pyContains sl "ohlcv" || (["open", "high", "low", "close"].all (pyContains sl))
  then "ohlcv"
  else "price"

/-- The capture of `re.search(r'def\s+\w+\s*\((.*?)\)', code, re.DOTALL)`
(synthesizer.py:72): scanning left to right, after `def` + whitespace +
identifier + optional whitespace + `(`, the (non-greedy) characters up to
the first `)`. -/
def findDefArgsAt (cs : List Char) : Option (List Char) :=
  match cs with
  | 'd' :: 'e' :: 'f' :: rest =>
      let ws := rest.takeWhile (fun c => c.isWhitespace)
      if ws.isEmpty then none
      else
        let rest := rest.dropWhile (fun c => c.isWhitespace)
        let name := rest.takeWhile isWordChar
        if name.isEmpty then none
        else
          let rest := (rest.dropWhile isWordChar).dropWhile (fun c => c.isWhitespace)
          match rest with
          | '(' :: body =>
              if (body.takeWhile (fun c => c ≠ ')')).length < body.length then
                some (body.takeWhile (fun c => c ≠ ')'))
              else none
          | _ => none
  | _ => none

/-- Left-to-right scan for the first position where the pattern matches. -/
def findDefArgs : List Char → Option (List Char)
  | [] => none
  | c :: rest =>
      match findDefArgsAt (c :: rest) with
      | some body => some body
      | none => findDefArgs rest

/-- One argument of the comma-split (synthesizer.py:80-94): strip, skip
empty and `self`; `name: type = default` keeps the text between `:` and
`=` as the type; `name = default` and bare names map to `"any"`. -/
def parseArgPiece (acc : List (String × String)) (piece : String) :
    List (String × String) :=
  let arg := pyStrip piece
  if arg == "" || arg == "self" then acc
  else if pyContains arg ":" then
    let name := pyStrip ((pySplit arg ':').headD arg)
    let tyHint := (pySplit (((pySplit arg ':').drop 1).headD "") '=').headD ""
    acc ++ [(name, pyStrip tyHint)]
  else if pyContains arg "=" then
    acc ++ [(pyStrip ((pySplit arg '=').headD arg), "any")]
  else acc ++ [(arg, "any")]

/-- `extract_args_schema` (synthesizer.py:69-96): the regex-based schema
extraction used by the synthesizer (distinct from the gateway's
AST-based `_extract_args_schema`). -/
def extract_args_schema (code : String) : List (String × String) :=
  match findDefArgs code.data with
  | none => []
  | some body => ((String.mk body).splitOn ",").foldl parseArgPiece []

/-- `Synthesizer._infer_category` (synthesizer.py:264-275). -/
def inferCategory (task : String) : String :=
  let tl := pyLower task
  if ["获取", "fetch", "get", "查询", "历史", "price", "quote"].any (pyContains tl) then
    if ["calculate", "calc", "计算", "rsi", "macd", "bollinger", "volatility",
        "correlation"].any (pyContains tl) then "calculation"
    else "fetch"
  else if ["if ", "return true", "return false", "signal", "divergence", "portfolio",
           "after"].any (pyContains tl) then "composite"
  else "calculation"

/-- `Synthesizer._create_trace_from_report` (synthesizer.py:277-298). -/
def createTraceFromReport (task : String) (report : VerificationReport) :
    ExecutionTrace :=
  let errors := (report.stages.filter (fun s => s.result == "fail")).map
    (fun s => toString s.stage ++ ": " ++ s.message)
  { trace_id := "verify_" ++ report.tool_name
    task_id := pyTake 50 task
    input_args := [("task", task), ("category", report.category)]
    output_repr := "final_stage=" ++ toString report.final_stage
    exit_code := if report.passed then 0 else 1
    std_out := some ""
    std_err := some (String.intercalate "; " errors)
    execution_time_ms := 0 }

/-- `Synthesizer.synthesize` (synthesizer.py:117-262), with the two
external collaborators as parameters: `llmCode` is the `code_payload`
returned by `LLMAdapter.generate_tool_code`, and `vres` the outcome of
`verifier.verify_all_stages`. The embedding keeps the source's control
flow: infer category and contract when absent, fail on missing code or
missing function name, fail on failed verification — and on success
REGISTER DIRECTLY on the registry (synthesizer.py:235-240), then call
`update_schema` (spec-modelled, synthesizer.py:244-250) and the
verification-field update, never touching the gateway's attempts log or
the checkpoint store. -/
def synthesize (hash : String → String) (st : SystemState) (task : String)
    (tool_name : Option String) (category0 : Option String)
    (contract0 : Option ToolContract) (llmCode : Option PyCode)
    (vres : Bool × VerificationReport) :
    Option ToolArtifact × ExecutionTrace × SystemState :=
  let category := if truthy category0 then category0.getD "" else inferCategory task
  let contract :=
    match contract0 with
    | some c => some c
    | none => infer_contract_from_query task category
  match llmCode with
  | none =>
      (none,
       { trace_id := "gen_failed", task_id := pyTake 50 task,
         input_args := [("task", task)], output_repr := "", exit_code := 1,
         std_out := some "", std_err := some "LLM failed to generate valid code",
         execution_time_ms := 0 }, st)
  | some code =>
      let fn :=
        match extractFunctionName code.text with
        | some f => some f
        | none => tool_name
      match fn with
      | none =>
          (none,
           { trace_id := "no_func", task_id := pyTake 50 task,
             input_args := [("task", task)], output_repr := "", exit_code := 1,
             std_out := some "",
             std_err := some "Could not extract function name from generated code",
             execution_time_ms := 0 }, st)
      | some func_name =>
          let args_schema := extract_args_schema code.text
          let passed := vres.1
          let report := vres.2
          let trace := createTraceFromReport task report
          if !passed then (none, trace, st)
          else
            let indicator := extract_indicator task code.text
            let data_type := extract_data_type task args_schema
            let capabilities := get_category_capabilities category
            let permissions :=
              if category == "fetch" then [Permission.NETWORK_READ, Permission.CALC_ONLY]
              else [Permission.CALC_ONLY]
            let input_requirements := args_schema.map (fun kv => kv.1)
            let regOut := ToolRegistry.register hash st.registry func_name code.text
              args_schema permissions false
            let tool := regOut.1
            let reg1 := ToolRegistry.update_schema regOut.2 tool.id (some category)
              indicator (some data_type) (some input_requirements)
            let reg2 := ToolRegistry.updateVerificationFields reg1 tool.id capabilities
              (contract.map (fun c => c.contract_id)) report.final_stage
            (some tool, trace, { st with registry := reg2 })

-- ---------------------------------------------------------------------
-- Refiner (src/evolution/refiner.py)
-- ---------------------------------------------------------------------

/-- `UNFIXABLE_ERRORS` (refiner.py:70-78). -/
def UNFIXABLE_ERRORS : List String :=
  ["SecurityException", "Unallowed import", "Unallowed call", "Unallowed attribute",
   "TimeoutError", "ConnectionError", "LLM API Error"]

/-- The `ERROR_PATTERNS` table of `Refiner._classify_error`
(refiner.py:89-149), approximated by each regex's literal trigger (the
capture groups of the KeyError/AttributeError/ModuleNotFoundError
patterns are elided; no claim examines the classification). -/
def classifyError (stderr : String) : String × String :=
  if pyContains stderr "TypeError:" then
    ("TypeError", "Check argument types and add type conversion")
  else if pyContains stderr "KeyError:" then
    ("KeyError", "Check DataFrame column names and use .get() with defaults")
  else if pyContains stderr "IndexError:" then
    ("IndexError", "Add length checks before indexing")
  else if pyContains stderr "ValueError:" then
    ("ValueError", "Add input validation and handle edge cases")
  else if pyContains stderr "ZeroDivisionError" then
    ("ZeroDivisionError", "Add zero-division guards")
  else if pyContains stderr "AttributeError:" then
    ("AttributeError", "Check object type before accessing attribute")
  else if pyContains stderr "ModuleNotFoundError:" then
    ("ModuleNotFoundError", "Replace forbidden module with pandas/numpy equivalent.")
  else if pyContains stderr "ImportError:" then
    ("ImportError", "Check import path and module name.")
  else if pyContains stderr "AssertionError" then
    ("AssertionError", "Fix the calculation logic to match expected output.")
  else ("UnknownError", "Analyze the error message and fix accordingly")

/-- The observable side effects of one refinement run, recorded in order:
backoff sleeps (with their duration in seconds), LLM calls, error-report
inserts, gateway submissions. -/
inductive RefEvent
  | sleep (sec : Nat)
  | llmAnalyze
  | persistReport
  | llmPatch
  | gatewaySubmit
deriving Repr, DecidableEq

/-- The external collaborators of one `Refiner.refine` run, indexed by the
attempt number: the LLM's analysis text, the LLM's patched code, and the
gateway's `(success, tool, report)` answer. -/
structure RefinerEnv where
  analyzeText : Nat → String
  patchResult : Nat → Option PyCode
  submitResult : Nat → Bool × Option ToolArtifact × VerificationReport

/-- `root_cause = text_response or thought_trace or default`
(refiner.py:193-203), with the analysis text standing for the LLM output
(truncation included upstream in the oracle). -/
def rootCauseOf (analysis : String) (etype strategy : String) : String :=
  if analysis == "" then etype ++ ": " ++ strategy else analysis

/-- `failure_snippet` (refiner.py:404-408): the first failed stage's
message, truncated to 200 characters. -/
def firstFailMessage (report : VerificationReport) : String :=
  match report.stages.find? (fun s => s.result == "fail") with
  | some s => pyTake 200 s.message
  | none => ""

/-- The body of the `for attempt in range(max_attempts)` loop of
`Refiner.refine` (refiner.py:322-432), recursing on the remaining
attempts. Per iteration, in source order: fail fast when the current
trace's stderr contains an unfixable substring; exponential backoff
(skipped on attempt 0); analyze the error (LLM call + `ErrorReport`
insert); generate a patch (LLM call), continuing on a missing payload or
missing function name; submit through the gateway, returning the tool on
success and otherwise looping with the failure message as the next
trace's stderr. -/
def refineLoop (env : RefinerEnv) : Nat → Nat → String → ExecutionTrace →
    List ErrorReport → List (String × String) → List RefEvent →
    Option ToolArtifact × List ErrorReport × List RefEvent
  | 0, _, _, _, reports, _, events => (none, reports, events)
  | remaining + 1, attempt, code, trace, reports, history, events =>
      let stderr := trace.std_err.getD ""
      if UNFIXABLE_ERRORS.any (fun u => pyContains stderr u) then
        (none, reports, events)
      else
        let events := if attempt > 0 then events ++ [RefEvent.sleep (2 ^ (attempt - 1))]
          else events
        let (etype, strategy) := classifyError stderr
        let report : ErrorReport :=
          { trace_id := trace.trace_id, error_type := etype,
            root_cause := rootCauseOf (env.analyzeText attempt) etype strategy }
        let events := events ++ [RefEvent.llmAnalyze, RefEvent.persistReport]
        let reports := reports ++ [report]
        match env.patchResult attempt with
        | none =>
            let history := history ++
              [("LLM failed to generate code", "No code payload returned")]
            refineLoop env remaining (attempt + 1) code trace reports history
              (events ++ [RefEvent.llmPatch])
        | some patched =>
            let events := events ++ [RefEvent.llmPatch]
            match extractFunctionName patched.text with
            | none =>
                let history := history ++
                  [("Patch generated but function name extraction failed",
                    "No function definition found in patched code")]
                refineLoop env remaining (attempt + 1) code trace reports history events
            | some _ =>
                let out := env.submitResult attempt
                let events := events ++ [RefEvent.gatewaySubmit]
                if out.1 && out.2.1.isSome then (out.2.1, reports, events)
                else
                  let failMsg := firstFailMessage out.2.2
                  let history := history ++
                    [("Fixed " ++ etype,
                      if failMsg == "" then "Gateway verification failed" else failMsg)]
                  let nextTrace : ExecutionTrace :=
                    { trace_id := "t_refine_" ++ toString attempt
                      task_id := "refine_" ++ toString attempt
                      input_args := []
                      output_repr := ""
                      exit_code := 1
                      std_out := some ""
                      std_err := some failMsg
                      execution_time_ms := 0 }
                  refineLoop env remaining (attempt + 1) patched.text nextTrace reports
                    history events

/-- `Refiner.refine` (refiner.py:284-432). The category inference
(refiner.py:313-315) is a pure prelude that does not affect the returned
triple; the event list records every sleep, LLM call, report insert and
gateway submission of the run. -/
def refine (env : RefinerEnv) (code : String) (_task : String)
    (trace : ExecutionTrace) (max_attempts : Nat) :
    Option ToolArtifact × List ErrorReport × List RefEvent :=
  refineLoop env max_attempts 0 code trace [] [] []

-- ---------------------------------------------------------------------
-- Deduplicator (src/evolution/merger.py)
-- ---------------------------------------------------------------------

/-- The scoring tuple of `SimpleDeduplicator.score_tool`
(merger.py:76-94): `(verification_stage, success_rate, avg_exec_time,
semantic_version)` — the success rate is `1.0` for PROVISIONAL tools and
`0.5` otherwise, and the average execution time is the constant `0.0`
(not tracked per tool). -/
structure Score where
  stage : Nat
  rate : ℚ
  avgTime : ℚ
  version : String
deriving Repr, DecidableEq

/-- Python tuple `<` on scores, lexicographic (the string component
compared by code point, as Python does). -/
def scoreLt (a b : Score) : Bool :=
  if a.stage ≠ b.stage then a.stage < b.stage
  else if a.rate ≠ b.rate then a.rate < b.rate
  else if a.avgTime ≠ b.avgTime then a.avgTime < b.avgTime
  else pyStrLt a.version b.version

/-- `SimpleDeduplicator.score_tool` (merger.py:76-94). -/
def score_tool (t : ToolArtifact) : Score :=
  { stage := t.verification_stage.getD 0
    rate := if t.status == ToolStatus.provisional then 1 else mkRat 1 2
    avgTime := 0
    version := if t.semantic_version == "" then "0.0.0" else t.semantic_version }

/-- Stable insertion for a descending sort by score: an element moves past
`y` only when its score is strictly smaller, so equal scores keep their
original order — the behaviour of Python's stable
`scored.sort(reverse=True)` (merger.py:57) whenever that sort returns
(when two full score tuples are equal Python falls through to comparing
the `ToolArtifact` objects themselves and may raise `TypeError`; the
claims under check only concern calls that return). -/
def insertDesc {α : Type} (key : α → Score) (x : α) : List α → List α
  | [] => [x]
  | y :: ys => if scoreLt (key x) (key y) then y :: insertDesc key x ys else x :: y :: ys

/-- `scored.sort(reverse=True)` as a stable descending sort. -/
def sortDesc {α : Type} (key : α → Score) (l : List α) : List α :=
  l.foldr (insertDesc key) []

/-- Registry plus the `batch_merge_records` table, the state the
deduplicator touches. -/
structure DedupState where
  registry : RegistryState
  mergeRecords : List BatchMergeRecord
deriving Repr, DecidableEq

/-- `SimpleDeduplicator._deprecate_tool` (merger.py:96-105): set the
status to DEPRECATED unless it already is. -/
def deprecateTool (st : RegistryState) (tool_id : Nat) : RegistryState :=
  { st with tools := st.tools.map (fun t =>
      if t.id == tool_id && !(t.status == ToolStatus.deprecated) then
        { t with status := ToolStatus.deprecated }
      else t) }

/-- `SimpleDeduplicator.check_and_resolve` (merger.py:35-74): collect the
contract's artifacts, drop the deprecated ones, return `no_action` when
at most one remains; otherwise sort by score descending, deprecate
everything but the head, append one `BatchMergeRecord`
(merger.py:107-130), and report `kept`/`superseded` by whether the head
is the just-submitted tool. -/
def check_and_resolve (st : DedupState) (new_tool_id : Nat) (contract_id : String) :
    String × DedupState :=
  let candidates := ToolRegistry.find_by_contract_id st.registry contract_id
  let active := candidates.filter (fun t => !(t.status == ToolStatus.deprecated))
  if active.length ≤ 1 then ("no_action", st)
  else
    match sortDesc score_tool active with
    | [] => ("no_action", st)
    | best :: rest =>
        let reg := rest.foldl (fun r t => deprecateTool r t.id) st.registry
        let record : BatchMergeRecord :=
          { source_tool_ids := rest.map (fun t => t.id)
            canonical_tool_id := some best.id
            strategy := "contract_dedup"
            contract_id := contract_id
            deprecated_count := rest.length
            kept_tool_name := best.name
            kept_tool_version := best.semantic_version }
        let st' : DedupState :=
          { registry := reg, mergeRecords := st.mergeRecords ++ [record] }
        (if best.id == new_tool_id then "kept" else "superseded", st')

-- ---------------------------------------------------------------------
-- Concrete fixtures used by the theorems and witnesses
-- ---------------------------------------------------------------------

/-- A concrete injective stand-in for SHA-256 in closed evaluations (the
general theorems quantify over the hash function). -/
def hashId : String → String := fun s => s

/-- A freshly initialised registry (autoincrement ids start at 1). -/
def emptyRegistry : RegistryState := { tools := [], files := [], nextId := 1 }

/-- A fresh system: empty registry, no attempts logged, no checkpoints. -/
def emptySystem : SystemState :=
  { registry := emptyRegistry, attemptsLog := [], checkpoints := [] }

/-- A minimal tool payload and its parse. -/
def exampleCode : PyCode :=
  { text := "def f(x):\n    return x"
    parsed := Except.ok [AstNode.functionDef [("x", AnnShape.noAnn)], AstNode.other] }

/-- A verifier report for a run that passed through SELF_TEST. -/
def passReport : VerificationReport :=
  { tool_name := "f", category := "calculation", stages := [], final_stage := 2,
    passed := true }

/-- Twelve pairwise distinct payloads. -/
def twelveCodes : List String :=
  ["a", "b", "c", "d", "e", "f", "g", "h", "i", "j", "k", "l"]

/-- Register a sequence of payloads under one name, in order. -/
def registerSeq (codes : List String) : RegistryState :=
  codes.foldl (fun st c => (ToolRegistry.register hashId st "t" c [] [] false).2)
    emptyRegistry

/-- A trace whose stderr carries a security-exception marker. -/
def unfixableTrace : ExecutionTrace :=
  { trace_id := "t_1", task_id := "demo", input_args := [], output_repr := "",
    exit_code := 1, std_out := some "",
    std_err := some "SecurityException: Banned import: os", execution_time_ms := 0 }

/-- A concrete refiner environment (never consulted on the fail-fast path). -/
def trivialEnv : RefinerEnv :=
  { analyzeText := fun _ => ""
    patchResult := fun _ => none
    submitResult := fun _ => (false, none, passReport) }

/-- The claim's notion of a banned identifier sitting in a position the
static analyzer visits, for one node: an import (direct or from-import)
of a banned or unallowed module, a call to a banned name (plain or as a
method), an access of a banned attribute, or a string literal containing
a banned (call or attribute) identifier. -/
def NodeViolates (R : CheckRules) : AstNode → Prop
  | AstNode.importNode names =>
      ∃ nm, nm ∈ names ∧
        (ToolExecutor.headMod nm ∈ R.banned ∨ ToolExecutor.headMod nm ∉ R.allowed)
  | AstNode.importFrom (some nm) =>
      ToolExecutor.headMod nm ∈ R.banned ∨ ToolExecutor.headMod nm ∉ R.allowed
  | AstNode.importFrom none => False
  | AstNode.callName id => id ∈ R.calls
  | AstNode.callAttr a => a ∈ R.calls
  | AstNode.attributeNode a => a ∈ R.attrs
  | AstNode.constantStr s => ∃ b, b ∈ R.calls ++ R.attrs ∧ pyContains s b = true
  | AstNode.functionDef _ => False
  | AstNode.other => False

/-- A fetch-only network import, as seen by the analyzer. -/
def yfinanceCode : PyCode :=
  { text := "import yfinance", parsed := Except.ok [AstNode.importNode ["yfinance"]] }

/-- The permissions `submit` derives from the category (gateway.py:221-227). -/
def submitPerms (category : String) : List String :=
  if category == "fetch" then [Permission.NETWORK_READ, Permission.CALC_ONLY]
  else [Permission.CALC_ONLY]

/-- The registration step of `submit`'s success path (gateway.py:229-234). -/
def submitRegOut (hash : String → String) (st : SystemState) (code : PyCode)
    (category : String) : ToolArtifact × RegistryState :=
  ToolRegistry.register hash st.registry ((extractFunctionName code.text).getD "unknown")
    code.text (extractArgsSchemaAst code) (submitPerms category) false

/-- The registry after `submit`'s post-registration updates
(gateway.py:236-252): category via `update_schema`, then capabilities /
contract id / verification stage. -/
def submitRegistryAfter (hash : String → String) (st : SystemState) (code : PyCode)
    (category : String) (rc : Option ToolContract) (report : VerificationReport) :
    RegistryState :=
  let out := submitRegOut hash st code category
  ToolRegistry.updateVerificationFields
    (ToolRegistry.update_schema out.2 out.1.id (some category) none none none)
    out.1.id (get_category_capabilities category)
    (rc.map (fun contract => contract.contract_id)) report.final_stage

/-- The active artifacts of one contract (merger.py:47-50): all rows with
the contract id, minus the already-deprecated ones. -/
def activeForContract (reg : RegistryState) (cid : String) : List ToolArtifact :=
  (ToolRegistry.find_by_contract_id reg cid).filter
    (fun t => !(t.status == ToolStatus.deprecated))

/-- A registered artifact carrying a contract id and stage, for the
deduplicator fixtures. -/
def dedupTool (i : Nat) (cid : String) (stg : Nat) (status : ToolStatus) :
    ToolArtifact :=
  { baseTool i ("t" ++ toString i) "0.1.0" ("generated/t" ++ toString i ++ ".py")
      ("h" ++ toString i) "code" [] [Permission.CALC_ONLY] with
    contract_id := some cid, verification_stage := some stg, status := status }

/-- Two active tools share the contract `calc_rsi`; a third lives on
another contract. -/
def dedupExample : DedupState :=
  { registry :=
      { tools :=
          [dedupTool 1 "calc_rsi" 3 ToolStatus.provisional,
           dedupTool 2 "calc_rsi" 4 ToolStatus.provisional,
           dedupTool 3 "other" 1 ToolStatus.provisional]
        files := []
        nextId := 4 }
    mergeRecords := [] }

-- ---------------------------------------------------------------------
-- Claim theorems
-- ---------------------------------------------------------------------

/-- C1: the claim says `registry.register` is invoked only from inside the
gateway's `submit`, and in particular that neither `Synthesizer.synthesize`
nor `synthesize_with_retry` calls it directly. The code violates this:
`Synthesizer.synthesize` calls `self.registry.register` directly
(synthesizer.py:235-240; `synthesize_with_retry` does too at
synthesizer.py:365-369). Witnessed here: a successful `synthesize` run on
a fresh system registers a new artifact while the gateway attempts log
and the checkpoint store — which every `gateway.submit` write path
necessarily appends to before reaching the registry — stay empty, so the
registry write did not pass through `submit`. -/
theorem synthesize_registers_directly_bypassing_gateway :
    ((synthesize hashId emptySystem "abc" none none none (some exampleCode)
        (true, passReport)).1).isSome = true
    ∧ (synthesize hashId emptySystem "abc" none none none (some exampleCode)
        (true, passReport)).2.2.registry.tools.length = 1
    ∧ (synthesize hashId emptySystem "abc" none none none (some exampleCode)
        (true, passReport)).2.2.attemptsLog = []
    ∧ (synthesize hashId emptySystem "abc" none none none (some exampleCode)
        (true, passReport)).2.2.checkpoints = [] := by
  refine ⟨?_, ?_, ?_, ?_⟩ <;> decide

/-- C4: the claim says a `contract_id` naming a catalog contract is used
for verification, and that inference from the task text happens otherwise
without `submit` raising. The code violates both parts:
(1) gateway.py:151 resolves `contract_id` through `get_contract`, the
TASK-id table lookup, so the catalog id "calc_rsi" — which
`get_contract_by_id` does resolve — yields no contract; (2) gateway.py:153
calls `infer_contract_from_query(task)` without the required `category`
argument, so a submission with only a task text raises `TypeError` during
resolution, before anything is logged (the final conjunct: the system
state is untouched by the raising call). -/
theorem submit_contract_resolution_mismatch :
    get_contract "calc_rsi" = none
    ∧ (get_contract_by_id "calc_rsi").map (fun c => c.contract_id) = some "calc_rsi"
    ∧ resolveContract none (some "calc_rsi") none = Except.ok none
    ∧ resolveContract none none (some "Calculate 14-day RSI")
        = Except.error (PyErr.typeError
            "infer_contract_from_query() missing 1 required positional argument: category")
    ∧ (submit hashId GateMode.dev true emptySystem exampleCode "calculation" none none
        (some "Calculate 14-day RSI") "task" false (true, passReport)).2 = emptySystem
    ∧ (submit hashId GateMode.dev true emptySystem exampleCode "calculation" none none
        (some "Calculate 14-day RSI") "task" false (true, passReport)).1
        = Except.error (PyErr.typeError
            "infer_contract_from_query() missing 1 required positional argument: category") := by
  exact ⟨by decide, by decide, rfl, rfl, rfl, rfl⟩

/-- C5 counterexample: the claim says exactly one entry is appended to the
gateway attempts log per `submit` call, with `success` equal to the
returned boolean. A successful submission on a fresh system appends TWO
entries (the `SUBMIT` entry logged with `success=False` at
gateway.py:156-162, then the `REGISTERED` entry), and the first appended
entry's `success` is `false` although `submit` returns `true`. -/
theorem submit_single_log_entry_counterexample :
    (submit hashId GateMode.dev true emptySystem exampleCode "calculation" none none none
        "task" false (true, passReport)).2.attemptsLog.length = 2
    ∧ ¬ ((submit hashId GateMode.dev true emptySystem exampleCode "calculation" none none
        none "task" false (true, passReport)).2.attemptsLog.length
          = emptySystem.attemptsLog.length + 1)
    ∧ ((submit hashId GateMode.dev true emptySystem exampleCode "calculation" none none
        none "task" false (true, passReport)).2.attemptsLog.head?.map
          (fun e => e.success)) = some false
    ∧ ((submit hashId GateMode.dev true emptySystem exampleCode "calculation" none none
        none "task" false (true, passReport)).1.toOption.map (fun r => r.1))
        = some true := by
  refine ⟨?_, ?_, ?_, ?_⟩ <;> decide

/-- C6: the claim says versions of a shared name are monotonic — each
later-registered distinct payload gets a strictly greater semantic
version, and `get_by_name` returns the latest. The code violates this:
`register` picks the base version with Python string `max`
(registry.py:83), so after the patch reaches 10 the string maximum of
`0.1.0 … 0.1.9, 0.1.10` is still `"0.1.9"` and the twelfth distinct
payload is assigned `0.1.10` AGAIN — equal to, not strictly greater
than, the eleventh's version — while `get_by_name` (registry.py:127)
returns the `0.1.9` artifact instead of the latest registration. -/
theorem register_version_string_max_not_monotonic :
    (registerSeq twelveCodes).tools.map (fun t => t.semantic_version)
      = ["0.1.0", "0.1.1", "0.1.2", "0.1.3", "0.1.4", "0.1.5", "0.1.6", "0.1.7",
         "0.1.8", "0.1.9", "0.1.10", "0.1.10"]
    ∧ (ToolRegistry.get_by_name (registerSeq twelveCodes) "t").map
        (fun t => t.semantic_version) = some "0.1.9" := by
  exact ⟨by decide, by decide⟩

/-- Helper: `find?` skips a prefix in which nothing matches. -/
theorem find?_append_of_none {α : Type} (p : α → Bool) (l₁ l₂ : List α)
    (h : l₁.find? p = none) : (l₁ ++ l₂).find? p = l₂.find? p := by
  induction l₁ with
  | nil => simp
  | cons a l ih =>
      cases hpa : p a with
      | true => simp [List.find?_cons_of_pos, hpa] at h
      | false =>
          simp only [List.find?_cons_of_neg, hpa, List.cons_append,
            Bool.false_eq_true, not_false_eq_true] at h ⊢
          exact ih h

/-- Helper: `register` called on a state whose table already holds the
payload's hash returns that row unchanged (registry.py:69-74). -/
theorem register_of_find_some (hash : String → String) (st : RegistryState)
    (name code : String) (schema : List (String × String)) (perms : List String)
    (boot : Bool) (e : ToolArtifact)
    (h : st.tools.find? (fun t => t.content_hash == hash code) = some e) :
    ToolRegistry.register hash st name code schema perms boot = (e, st) := by
  simp only [ToolRegistry.register]
  rw [h]

/-- Helper: after any `register` of payload `code`, the state's table
resolves `hash code` to exactly the returned artifact. -/
theorem register_find_self (hash : String → String) (st : RegistryState)
    (name code : String) (schema : List (String × String)) (perms : List String)
    (boot : Bool) :
    ((ToolRegistry.register hash st name code schema perms boot).2).tools.find?
        (fun t => t.content_hash == hash code)
      = some ((ToolRegistry.register hash st name code schema perms boot).1) := by
  simp only [ToolRegistry.register]
  cases hfind : st.tools.find? (fun t => t.content_hash == hash code) with
  | some e => simpa using hfind
  | none =>
      simp only []
      rw [find?_append_of_none _ _ _ hfind]
      simp [baseTool]

/-- C8: registering the same code payload twice is write-once by content
hash: whatever name, schema, permissions or bootstrap flag the second
call passes, it returns exactly the artifact produced (or found) by the
first call, and leaves the registry state — table, disk files and id
counter — unchanged, so no new disk write or metadata insert happens. -/
theorem register_content_hash_write_once (hash : String → String)
    (st : RegistryState) (name code : String) (schema : List (String × String))
    (perms : List String) (boot : Bool) (name' : String)
    (schema' : List (String × String)) (perms' : List String) (boot' : Bool) :
    ToolRegistry.register hash
        (ToolRegistry.register hash st name code schema perms boot).2
        name' code schema' perms' boot'
      = ((ToolRegistry.register hash st name code schema perms boot).1,
         (ToolRegistry.register hash st name code schema perms boot).2) := by
  exact register_of_find_some hash _ name' code schema' perms' boot' _
    (register_find_self hash st name code schema perms boot)

/-- C9: for any input trace whose stderr contains an unfixable-error
substring (security exception, unallowed import/call/attribute, timeout,
connection error, LLM API error), `refine` returns `(none, [])`
immediately on the first iteration: no error report is created and the
recorded event list is empty — no LLM call, no backoff sleep, no gateway
submission. -/
theorem refine_fail_fast_on_unfixable (env : RefinerEnv) (code task : String)
    (trace : ExecutionTrace) (maxAttempts : Nat)
    (h : UNFIXABLE_ERRORS.any (fun u => pyContains (trace.std_err.getD "") u) = true) :
    refine env code task trace maxAttempts = (none, [], []) := by
  cases maxAttempts with
  | zero => rfl
  | succ n =>
      simp only [refine, refineLoop, h]
      rfl

/-- Witness for C9 at a concrete trace containing "SecurityException". -/
theorem refine_fail_fast_on_unfixable_witness :
    UNFIXABLE_ERRORS.any (fun u => pyContains (unfixableTrace.std_err.getD "") u) = true
    ∧ refine trivialEnv "code" "task" unfixableTrace 3 = (none, [], []) :=
  ⟨by decide, refine_fail_fast_on_unfixable trivialEnv "code" "task" unfixableTrace 3
    (by decide)⟩

/-- Helper: `findSome?` succeeds when some member succeeds. -/
theorem findSome?_isSome_of_mem {α β : Type} (f : α → Option β) {a : α} {l : List α}
    (h : a ∈ l) (hf : (f a).isSome) : (l.findSome? f).isSome := by
  induction l with
  | nil => cases h
  | cons x xs ih =>
      rw [List.findSome?_cons]
      cases hfx : f x with
      | some b => simp
      | none =>
          rcases List.mem_cons.mp h with rfl | hmem
          · rw [hfx] at hf; simp at hf
          · exact ih hmem

/-- Helper: a violating import alias makes `checkAlias` report. -/
theorem checkAlias_isSome_of_violation (R : CheckRules) (nm : String)
    (h : ToolExecutor.headMod nm ∈ R.banned ∨ ToolExecutor.headMod nm ∉ R.allowed) :
    (ToolExecutor.checkAlias R nm).isSome := by
  unfold ToolExecutor.checkAlias
  rcases h with hb | hna
  · simp [hb]
  · by_cases hb2 : ToolExecutor.headMod nm ∈ R.banned
    · simp [hb2]
    · simp [hb2, hna]

/-- Helper: a violating node makes `checkNode` report. -/
theorem checkNode_isSome_of_violates (R : CheckRules) (n : AstNode)
    (h : NodeViolates R n) : (ToolExecutor.checkNode R n).isSome := by
  cases n with
  | importNode names =>
      obtain ⟨nm, hmem, hv⟩ := h
      exact findSome?_isSome_of_mem _ hmem (checkAlias_isSome_of_violation R nm hv)
  | importFrom mo =>
      cases mo with
      | none => cases h
      | some nm =>
          simp only [ToolExecutor.checkNode]
          rcases h with hb | hna
          · simp [hb]
          · by_cases hb2 : ToolExecutor.headMod nm ∈ R.banned
            · simp [hb2]
            · simp [hb2, hna]
  | callName id =>
      have h' : id ∈ R.calls := h
      simp [ToolExecutor.checkNode, h']
  | callAttr a =>
      have h' : a ∈ R.calls := h
      simp [ToolExecutor.checkNode, h']
  | attributeNode a =>
      have h' : a ∈ R.attrs := h
      simp [ToolExecutor.checkNode, h']
  | constantStr s =>
      obtain ⟨b, hmem, hb⟩ := h
      simp only [ToolExecutor.checkNode]
      refine findSome?_isSome_of_mem _ hmem ?_
      simp [hb]
  | functionDef args => cases h
  | other => cases h

/-- C3: for any code in which a banned identifier occurs in a position the
static analyzer visits — an import (direct or from-import) of a banned or
unallowed module, a call to a banned name (plain or method), an access of
a banned attribute, or a string literal containing a banned identifier —
`static_check_with_rules` (and hence `static_check`) returns
`is_safe = false` together with an error message, for every rule-set
configuration. -/
theorem static_check_rejects_violation (c : Constraints) (text : String)
    (nodes : List AstNode) (am bm bc ba : Option (List String))
    (h : ∃ n, n ∈ nodes ∧ NodeViolates (ToolExecutor.mergeRules c am bm bc ba) n) :
    (ToolExecutor.static_check_with_rules c { text := text, parsed := Except.ok nodes }
        am bm bc ba).1 = false
    ∧ (ToolExecutor.static_check_with_rules c { text := text, parsed := Except.ok nodes }
        am bm bc ba).2.isSome := by
  obtain ⟨n, hmem, hv⟩ := h
  have hsome :
      (nodes.findSome?
        (ToolExecutor.checkNode (ToolExecutor.mergeRules c am bm bc ba))).isSome :=
    findSome?_isSome_of_mem _ hmem
      (checkNode_isSome_of_violates (ToolExecutor.mergeRules c am bm bc ba) n hv)
  unfold ToolExecutor.static_check_with_rules
  cases hfs : nodes.findSome?
      (ToolExecutor.checkNode (ToolExecutor.mergeRules c am bm bc ba)) with
  | none => rw [hfs] at hsome; simp at hsome
  | some msg => simp [hfs]

/-- Witness for C3: `import os` under the default rules of the sample
constraints is rejected with an error message. -/
theorem static_check_rejects_violation_witness :
    (∃ n, n ∈ [AstNode.importNode ["os"]]
      ∧ NodeViolates (ToolExecutor.mergeRules sampleConstraints none none none none) n)
    ∧ (ToolExecutor.static_check_with_rules sampleConstraints
        { text := "import os", parsed := Except.ok [AstNode.importNode ["os"]] }
        none none none none).1 = false
    ∧ (ToolExecutor.static_check_with_rules sampleConstraints
        { text := "import os", parsed := Except.ok [AstNode.importNode ["os"]] }
        none none none none).2.isSome :=
  ⟨⟨AstNode.importNode ["os"], by decide, ⟨"os", by decide, Or.inl (by decide)⟩⟩,
   static_check_rejects_violation sampleConstraints "import os"
     [AstNode.importNode ["os"]] none none none none
     ⟨AstNode.importNode ["os"], by decide, ⟨"os", by decide, Or.inl (by decide)⟩⟩⟩

/-- C10 (implicit): `execute` applies its internal static check with the
UNION of the allowed-module sets of all three categories, regardless of
the tool's category. First conjunct: any module whose head component is
allowed for at least one of `calculation`/`fetch`/`composite` and is not
always-banned is never rejected by `execute`'s own gate — `static_check`
accepts the import and `executeStaticGate` lets execution proceed (note
`execute` does not even take a category). Second conjunct: the verifier's
AST_SECURITY stage is where the category-specific sets are enforced — it
passes exactly `get_allowed_modules category` / `get_banned_modules
category` to `static_check_with_rules`, and passes iff that check does.
Third conjunct, concretely: under the capability rule sets, `import
yfinance` passes `execute`'s own gate but fails the verifier's
AST_SECURITY stage for category `calculation` while passing it for
`fetch`. -/
theorem execute_checks_union_verifier_checks_category :
    (∀ (c : Constraints) (m : String),
      (ToolExecutor.headMod m ∈ c.get_allowed_modules "calculation"
        ∨ ToolExecutor.headMod m ∈ c.get_allowed_modules "fetch"
        ∨ ToolExecutor.headMod m ∈ c.get_allowed_modules "composite") →
      ToolExecutor.headMod m ∉ ToolExecutor.BANNED_MODULES c →
      ∀ (text task_id : String) (args : List (String × String)),
        ToolExecutor.static_check c
            { text := text, parsed := Except.ok [AstNode.importNode [m]] } = (true, none)
        ∧ ToolExecutor.executeStaticGate c
            { text := text, parsed := Except.ok [AstNode.importNode [m]] } args task_id
            = none)
    ∧ (∀ (c : Constraints) (category : String) (code : PyCode),
        (verifyAstSecurity c category code).result = "pass"
          ↔ (ToolExecutor.static_check_with_rules c code
              (some (c.get_allowed_modules category))
              (some (c.get_banned_modules category))
              (some c.always_banned_calls)
              (some c.always_banned_attributes)).1 = true)
    ∧ (verifyAstSecurity sampleConstraints "calculation" yfinanceCode).result = "fail"
    ∧ (verifyAstSecurity sampleConstraints "fetch" yfinanceCode).result = "pass" := by
  refine ⟨?_, ?_, by decide, by decide⟩
  · intro c m hallow hban text task_id args
    have hmem : ToolExecutor.headMod m ∈ ToolExecutor.ALLOWED_MODULES c := by
      unfold ToolExecutor.ALLOWED_MODULES
      rcases hallow with h | h | h <;> simp [List.mem_append, h]
    have hcheck : ToolExecutor.static_check c
        { text := text, parsed := Except.ok [AstNode.importNode [m]] } = (true, none) := by
      simp [ToolExecutor.static_check, ToolExecutor.static_check_with_rules,
        ToolExecutor.mergeRules, ToolExecutor.checkNode, ToolExecutor.checkAlias,
        List.findSome?, hmem, hban]
    refine ⟨hcheck, ?_⟩
    simp [ToolExecutor.executeStaticGate, hcheck]
  · intro c category code
    cases hres : (ToolExecutor.static_check_with_rules c code
        (some (c.get_allowed_modules category))
        (some (c.get_banned_modules category))
        (some c.always_banned_calls)
        (some c.always_banned_attributes)).1 with
    | true => simp [verifyAstSecurity, hres]
    | false => simp [verifyAstSecurity, hres]

/-- Witness for C10: `yfinance` is fetch-allowed under the sample
constraints and not always-banned, so `execute`'s own gate passes it, and
the verifier equivalence instantiated at category `calculation`. -/
theorem execute_checks_union_witness :
    (ToolExecutor.static_check sampleConstraints
        { text := "import yfinance", parsed := Except.ok [AstNode.importNode ["yfinance"]] }
        = (true, none)
      ∧ ToolExecutor.executeStaticGate sampleConstraints
        { text := "import yfinance", parsed := Except.ok [AstNode.importNode ["yfinance"]] }
        [] "t" = none)
    ∧ ((verifyAstSecurity sampleConstraints "calculation" yfinanceCode).result = "pass"
        ↔ (ToolExecutor.static_check_with_rules sampleConstraints yfinanceCode
            (some (sampleConstraints.get_allowed_modules "calculation"))
            (some (sampleConstraints.get_banned_modules "calculation"))
            (some sampleConstraints.always_banned_calls)
            (some sampleConstraints.always_banned_attributes)).1 = true) :=
  ⟨execute_checks_union_verifier_checks_category.1 sampleConstraints "yfinance"
      (Or.inr (Or.inl (by decide))) (by decide) "import yfinance" "t" [],
   execute_checks_union_verifier_checks_category.2.1 sampleConstraints "calculation"
      yfinanceCode⟩

/-- Helper: updating the element right after a prefix rewrites it in place. -/
theorem updateAt_append_cons {α : Type} (f : α → α) (l : List α) (x : α) (r : List α) :
    updateAt f l.length (l ++ x :: r) = l ++ f x :: r := by
  induction l with
  | nil => rfl
  | cons a as ih => simp [updateAt, ih]

/-- Helper: a CHECKPOINT-tier action is auto-approved by the gatekeeper,
which appends one completed checkpoint of its own. -/
theorem gatekeeperExecute_checkpoint_action (mode : GateMode) (approved : Bool)
    (st : SystemState) (action : String)
    (h : classifyAction action = EvolutionGate.checkpointTier) :
    gatekeeperExecute mode approved st action
      = (true, { st with checkpoints := st.checkpoints ++
          [{ action := action, status := CpStatus.completed, error := none }] }) := by
  simp only [gatekeeperExecute, h, createCheckpoint, markComplete]
  have hcp := updateAt_append_cons (fun cp => { cp with status := CpStatus.completed })
    st.checkpoints { action := action, status := CpStatus.pending, error := none } []
  simp [hcp]

/-- Helper: `create_tool` and `modify_tool` are CHECKPOINT tier. -/
theorem classify_create_modify (b : Bool) :
    classifyAction (if b then "modify_tool" else "create_tool")
      = EvolutionGate.checkpointTier := by
  cases b <;> decide

/-- Helper: the gatekeeper step of `submit` always approves, appending one
completed checkpoint. -/
theorem gatekeeperExecute_create_modify (mode : GateMode) (approved : Bool)
    (st : SystemState) (b : Bool) :
    gatekeeperExecute mode approved st (if b then "modify_tool" else "create_tool")
      = (true, { st with checkpoints := st.checkpoints ++
          [{ action := if b then "modify_tool" else "create_tool",
             status := CpStatus.completed, error := none }] }) :=
  gatekeeperExecute_checkpoint_action mode approved st _ (classify_create_modify b)

/-- Helper: shape of `submit` on the success path — once the contract
resolves and verification passes, `submit` returns
`(True, tool, report)`, appends exactly the `SUBMIT` and `REGISTERED`
log entries, completes the `submit_tool` checkpoint (the optional extra
checkpoint is the gatekeeper's own, also completed), and leaves the
registry as `submitRegistryAfter`. -/
theorem submit_success_shape (hash : String → String) (mode : GateMode)
    (approved : Bool) (st : SystemState) (code : PyCode) (category : String)
    (contract : Option ToolContract) (contract_id : Option String)
    (task : Option String) (task_id : String) (force : Bool)
    (vres : Bool × VerificationReport) (rc : Option ToolContract)
    (hres : resolveContract contract contract_id task = Except.ok rc)
    (hv : vres.1 = true) :
    ∃ gateCps : List Checkpoint,
      submit hash mode approved st code category contract contract_id task task_id
          force vres
        = (Except.ok (true, some (submitRegOut hash st code category).1, vres.2),
           { registry := submitRegistryAfter hash st code category rc vres.2
             attemptsLog := st.attemptsLog ++
               [{ action := "SUBMIT",
                  tool_name := (extractFunctionName code.text).getD "unknown",
                  category := category, success := false },
                { action := "REGISTERED",
                  tool_name := (extractFunctionName code.text).getD "unknown",
                  category := category, success := true }]
             checkpoints := st.checkpoints ++
               { action := "submit_tool", status := CpStatus.completed, error := none }
                 :: gateCps }) := by
  simp only [submit]
  rw [hres]
  simp only [hv, Bool.not_true, Bool.false_eq_true, if_false]
  cases force with
  | true =>
      refine ⟨[], ?_⟩
      simp only [if_true, logAttempt, createCheckpoint, markComplete]
      have hcp := updateAt_append_cons
        (fun cp => { cp with status := CpStatus.completed }) st.checkpoints
        { action := "submit_tool", status := CpStatus.pending, error := none } []
      simp only [submitRegOut, submitRegistryAfter, submitPerms]
      simp [hcp, List.append_assoc]
  | false =>
      refine ⟨[⟨(if toolExists st ((extractFunctionName code.text).getD "unknown")
          then "modify_tool" else "create_tool"), CpStatus.completed, none⟩], ?_⟩
      simp only [Bool.false_eq_true, if_false, logAttempt, createCheckpoint,
        markComplete]
      rw [gatekeeperExecute_create_modify]
      have hcp := updateAt_append_cons
        (fun cp => { cp with status := CpStatus.completed }) st.checkpoints
        { action := "submit_tool", status := CpStatus.pending, error := none }
      simp only [submitRegOut, submitRegistryAfter, submitPerms]
      simp [hcp, List.append_assoc, toolExists]

/-- Helper: shape of `submit` when verification fails (gateway.py:184-197):
`(False, None, report)`, the `SUBMIT` and `VERIFICATION_FAILED` entries,
the checkpoint marked failed, the registry untouched. -/
theorem submit_fail_shape (hash : String → String) (mode : GateMode)
    (approved : Bool) (st : SystemState) (code : PyCode) (category : String)
    (contract : Option ToolContract) (contract_id : Option String)
    (task : Option String) (task_id : String) (force : Bool)
    (vres : Bool × VerificationReport) (rc : Option ToolContract)
    (hres : resolveContract contract contract_id task = Except.ok rc)
    (hv : vres.1 = false) :
    submit hash mode approved st code category contract contract_id task task_id
        force vres
      = (Except.ok (false, none, vres.2),
         { registry := st.registry
           attemptsLog := st.attemptsLog ++
             [{ action := "SUBMIT",
                tool_name := (extractFunctionName code.text).getD "unknown",
                category := category, success := false },
              { action := "VERIFICATION_FAILED",
                tool_name := (extractFunctionName code.text).getD "unknown",
                category := category, success := false }]
           checkpoints := st.checkpoints ++
             [{ action := "submit_tool", status := CpStatus.failed,
                error := some "Verification failed" }] }) := by
  simp only [submit]
  rw [hres]
  simp only [hv, Bool.not_false, if_true, logAttempt, createCheckpoint, markFailed]
  have hcp := updateAt_append_cons
    (fun cp => { cp with status := CpStatus.failed, error := some "Verification failed" })
    st.checkpoints { action := "submit_tool", status := CpStatus.pending, error := none }
    []
  simp [hcp]

/-- Helper: the artifact `register` returns is in the resulting table. -/
theorem register_mem_tools (hash : String → String) (st : RegistryState)
    (name code : String) (schema : List (String × String)) (perms : List String)
    (boot : Bool) :
    (ToolRegistry.register hash st name code schema perms boot).1
      ∈ ((ToolRegistry.register hash st name code schema perms boot).2).tools :=
  List.mem_of_find?_eq_some (register_find_self hash st name code schema perms boot)

/-- Helper: `update_schema` rewrites the targeted row's category. -/
theorem update_schema_sets_category (st : RegistryState) (t : ToolArtifact)
    (ht : t ∈ st.tools) (cat : String) :
    { t with category := some cat }
      ∈ (ToolRegistry.update_schema st t.id (some cat) none none none).tools := by
  simp only [ToolRegistry.update_schema]
  refine List.mem_map.mpr ⟨t, ht, ?_⟩
  simp

/-- Helper: the verification-field update rewrites the targeted row. -/
theorem updateVF_sets_fields (st : RegistryState) (t : ToolArtifact)
    (ht : t ∈ st.tools) (caps : List String) (cid : Option String) (stg : Nat) :
    { t with capabilities := caps, contract_id := cid, verification_stage := some stg }
      ∈ (ToolRegistry.updateVerificationFields st t.id caps cid stg).tools := by
  simp only [ToolRegistry.updateVerificationFields]
  refine List.mem_map.mpr ⟨t, ht, ?_⟩
  simp

/-- C2: for every submission whose verification passes and whose
gatekeeper check approves (which it always does for the CHECKPOINT-tier
`create_tool`/`modify_tool` actions, and is bypassed under `force`),
`submit` registers the tool via `registry.register`, then sets the
category and the verification fields (capabilities, contract id,
verification stage) on the registered row, marks the `submit_tool`
checkpoint completed, and returns `(True, tool, report)` without raising
(`Except.ok`). Holds for the spec-modelled `registry.update_schema`. -/
theorem submit_success_registers_and_completes (hash : String → String)
    (mode : GateMode) (approved : Bool) (st : SystemState) (code : PyCode)
    (category : String) (contract : Option ToolContract)
    (contract_id : Option String) (task : Option String) (task_id : String)
    (force : Bool) (vres : Bool × VerificationReport) (rc : Option ToolContract)
    (hres : resolveContract contract contract_id task = Except.ok rc)
    (hv : vres.1 = true) :
    ∃ tool : ToolArtifact,
      (submit hash mode approved st code category contract contract_id task task_id
          force vres).1 = Except.ok (true, some tool, vres.2)
      ∧ (∃ t ∈ (submit hash mode approved st code category contract contract_id task
            task_id force vres).2.registry.tools,
          t.id = tool.id ∧ t.category = some category
          ∧ t.verification_stage = some vres.2.final_stage
          ∧ t.capabilities = get_category_capabilities category
          ∧ t.contract_id = rc.map (fun co => co.contract_id))
      ∧ (∃ suffix, (submit hash mode approved st code category contract contract_id
            task task_id force vres).2.checkpoints
          = st.checkpoints
            ++ { action := "submit_tool", status := CpStatus.completed, error := none }
              :: suffix)
      ∧ (submit hash mode approved st code category contract contract_id task task_id
          force vres).2.attemptsLog.getLast?
        = some { action := "REGISTERED",
                 tool_name := (extractFunctionName code.text).getD "unknown",
                 category := category, success := true } := by
  obtain ⟨gateCps, heq⟩ := submit_success_shape hash mode approved st code category
    contract contract_id task task_id force vres rc hres hv
  refine ⟨(submitRegOut hash st code category).1, ?_, ?_, ?_, ?_⟩
  · rw [heq]
  · rw [heq]
    have h0 := register_mem_tools hash st.registry
      ((extractFunctionName code.text).getD "unknown") code.text
      (extractArgsSchemaAst code) (submitPerms category) false
    have h1 := update_schema_sets_category (submitRegOut hash st code category).2
      (submitRegOut hash st code category).1 h0 category
    have h2 := updateVF_sets_fields
      (ToolRegistry.update_schema (submitRegOut hash st code category).2
        (submitRegOut hash st code category).1.id (some category) none none none)
      { (submitRegOut hash st code category).1 with category := some category }
      h1 (get_category_capabilities category)
      (rc.map (fun co => co.contract_id)) vres.2.final_stage
    refine ⟨_, h2, ?_, ?_, ?_, ?_, ?_⟩ <;> rfl
  · rw [heq]
    exact ⟨gateCps, rfl⟩
  · rw [heq]
    have hsplit : st.attemptsLog ++
        [{ action := "SUBMIT",
           tool_name := (extractFunctionName code.text).getD "unknown",
           category := category, success := false },
         { action := "REGISTERED",
           tool_name := (extractFunctionName code.text).getD "unknown",
           category := category, success := true }]
      = (st.attemptsLog ++
          [{ action := "SUBMIT",
             tool_name := (extractFunctionName code.text).getD "unknown",
             category := category, success := false }]) ++
          [{ action := "REGISTERED",
             tool_name := (extractFunctionName code.text).getD "unknown",
             category := category, success := true }] := by simp
    simp only [hsplit]
    rw [List.getLast?_concat]

/-- Witness for C2 at a concrete successful submission. -/
theorem submit_success_registers_witness :
    resolveContract none none none = Except.ok none
    ∧ ((true, passReport) : Bool × VerificationReport).1 = true
    ∧ ∃ tool : ToolArtifact,
      (submit hashId GateMode.dev true emptySystem exampleCode "calculation" none none
          none "task" false (true, passReport)).1
        = Except.ok (true, some tool, passReport)
      ∧ (∃ t ∈ (submit hashId GateMode.dev true emptySystem exampleCode "calculation"
            none none none "task" false (true, passReport)).2.registry.tools,
          t.id = tool.id ∧ t.category = some "calculation"
          ∧ t.verification_stage = some passReport.final_stage
          ∧ t.capabilities = get_category_capabilities "calculation"
          ∧ t.contract_id = (none : Option ToolContract).map (fun co => co.contract_id))
      ∧ (∃ suffix, (submit hashId GateMode.dev true emptySystem exampleCode
            "calculation" none none none "task" false
            (true, passReport)).2.checkpoints
          = emptySystem.checkpoints
            ++ { action := "submit_tool", status := CpStatus.completed, error := none }
              :: suffix)
      ∧ (submit hashId GateMode.dev true emptySystem exampleCode "calculation" none
          none none "task" false (true, passReport)).2.attemptsLog.getLast?
        = some { action := "REGISTERED",
                 tool_name := (extractFunctionName exampleCode.text).getD "unknown",
                 category := "calculation", success := true } :=
  ⟨rfl, rfl,
   submit_success_registers_and_completes hashId GateMode.dev true emptySystem
     exampleCode "calculation" none none none "task" false (true, passReport) none
     rfl rfl⟩

/-- Helper: indexing right after a prefix of an append. -/
theorem getElem?_append_self {α : Type} (l : List α) (x : α) (r : List α) :
    (l ++ x :: r)[l.length]? = some x := by
  induction l with
  | nil => simp
  | cons a as ih => simpa using ih

/-- C5 (amended): every `submit` call that returns (rather than raising
during contract resolution) appends exactly TWO entries to the gateway
attempts log — first a `SUBMIT` entry recorded with `success = false`,
then an outcome entry whose `success` equals the boolean `submit`
returns — and consequently `get_registration_stats` counts each returning
submission twice in its total. -/
theorem submit_appends_submit_and_outcome_entries (hash : String → String)
    (mode : GateMode) (approved : Bool) (st : SystemState) (code : PyCode)
    (category : String) (contract : Option ToolContract)
    (contract_id : Option String) (task : Option String) (task_id : String)
    (force : Bool) (vres : Bool × VerificationReport) (rc : Option ToolContract)
    (hres : resolveContract contract contract_id task = Except.ok rc) :
    ∃ (b : Bool) (t : Option ToolArtifact),
      (submit hash mode approved st code category contract contract_id task task_id
          force vres).1 = Except.ok (b, t, vres.2)
      ∧ (submit hash mode approved st code category contract contract_id task task_id
          force vres).2.attemptsLog.length = st.attemptsLog.length + 2
      ∧ (submit hash mode approved st code category contract contract_id task task_id
          force vres).2.attemptsLog[st.attemptsLog.length]?
        = some { action := "SUBMIT",
                 tool_name := (extractFunctionName code.text).getD "unknown",
                 category := category, success := false }
      ∧ ((submit hash mode approved st code category contract contract_id task task_id
          force vres).2.attemptsLog.getLast?.map (fun e => e.success)) = some b
      ∧ (get_registration_stats (submit hash mode approved st code category contract
          contract_id task task_id force vres).2).total
        = (get_registration_stats st).total + 2 := by
  cases hv : vres.1 with
  | true =>
      obtain ⟨gateCps, heq⟩ := submit_success_shape hash mode approved st code category
        contract contract_id task task_id force vres rc hres hv
      refine ⟨true, some (submitRegOut hash st code category).1, ?_, ?_, ?_, ?_, ?_⟩
      · rw [heq]
      · rw [heq]; simp
      · rw [heq]; exact getElem?_append_self st.attemptsLog _ _
      · rw [heq]
        have hsplit : ∀ (x y : LogEntry),
            st.attemptsLog ++ [x, y] = (st.attemptsLog ++ [x]) ++ [y] := by simp
        simp only [hsplit, List.getLast?_concat]
        rfl
      · rw [heq]; simp [get_registration_stats]
  | false =>
      have heq := submit_fail_shape hash mode approved st code category
        contract contract_id task task_id force vres rc hres hv
      refine ⟨false, none, ?_, ?_, ?_, ?_, ?_⟩
      · rw [heq]
      · rw [heq]; simp
      · rw [heq]; exact getElem?_append_self st.attemptsLog _ _
      · rw [heq]
        have hsplit : ∀ (x y : LogEntry),
            st.attemptsLog ++ [x, y] = (st.attemptsLog ++ [x]) ++ [y] := by simp
        simp only [hsplit, List.getLast?_concat]
        rfl
      · rw [heq]; simp [get_registration_stats]

/-- Witness for C5 (amended) at a concrete successful submission. -/
theorem submit_appends_two_entries_witness :
    resolveContract none none none = Except.ok none
    ∧ ∃ (b : Bool) (t : Option ToolArtifact),
      (submit hashId GateMode.dev true emptySystem exampleCode "calculation" none none
          none "task" false (true, passReport)).1 = Except.ok (b, t, passReport)
      ∧ (submit hashId GateMode.dev true emptySystem exampleCode "calculation" none
          none none "task" false (true, passReport)).2.attemptsLog.length
        = emptySystem.attemptsLog.length + 2
      ∧ (submit hashId GateMode.dev true emptySystem exampleCode "calculation" none
          none none "task" false
          (true, passReport)).2.attemptsLog[emptySystem.attemptsLog.length]?
        = some { action := "SUBMIT",
                 tool_name := (extractFunctionName exampleCode.text).getD "unknown",
                 category := "calculation", success := false }
      ∧ ((submit hashId GateMode.dev true emptySystem exampleCode "calculation" none
          none none "task" false (true, passReport)).2.attemptsLog.getLast?.map
            (fun e => e.success)) = some b
      ∧ (get_registration_stats (submit hashId GateMode.dev true emptySystem
          exampleCode "calculation" none none none "task" false
          (true, passReport)).2).total
        = (get_registration_stats emptySystem).total + 2 :=
  ⟨rfl,
   submit_appends_submit_and_outcome_entries hashId GateMode.dev true emptySystem
     exampleCode "calculation" none none none "task" false (true, passReport) none
     rfl⟩

/-- Helper: insertion grows the length by one. -/
theorem length_insertDesc {α : Type} (key : α → Score) (x : α) (l : List α) :
    (insertDesc key x l).length = l.length + 1 := by
  induction l with
  | nil => rfl
  | cons y ys ih =>
      simp only [insertDesc]
      split
      · simp [ih]
      · simp

/-- Helper: the descending sort preserves length. -/
theorem length_sortDesc {α : Type} (key : α → Score) (l : List α) :
    (sortDesc key l).length = l.length := by
  induction l with
  | nil => rfl
  | cons x xs ih =>
      simp only [sortDesc, List.foldr_cons, length_insertDesc]
      simpa [sortDesc] using ih

/-- Helper: membership in an insertion. -/
theorem mem_insertDesc {α : Type} (key : α → Score) (x y : α) (l : List α) :
    y ∈ insertDesc key x l ↔ y = x ∨ y ∈ l := by
  induction l with
  | nil => simp [insertDesc]
  | cons z zs ih =>
      simp only [insertDesc]
      split
      · simp only [List.mem_cons, ih]
        tauto
      · simp [List.mem_cons]

/-- Helper: the sort keeps every member. -/
theorem mem_sortDesc {α : Type} (key : α → Score) (l : List α) (y : α)
    (h : y ∈ l) : y ∈ sortDesc key l := by
  induction l with
  | nil => cases h
  | cons x xs ih =>
      simp only [sortDesc, List.foldr_cons]
      rcases List.mem_cons.mp h with rfl | hmem
      · exact (mem_insertDesc key y y _).mpr (Or.inl rfl)
      · exact (mem_insertDesc key x y _).mpr (Or.inr (ih hmem))

/-- Helper: the sequential per-id deprecation loop equals one pass over
the table. -/
theorem foldl_deprecate_tools (rest : List ToolArtifact) (reg : RegistryState) :
    (rest.foldl (fun r t => deprecateTool r t.id) reg).tools
      = reg.tools.map (fun t =>
          if (rest.any (fun s => t.id == s.id)) && !(t.status == ToolStatus.deprecated)
          then { t with status := ToolStatus.deprecated } else t) := by
  induction rest generalizing reg with
  | nil =>
      simp
  | cons r rs ih =>
      rw [List.foldl_cons, ih]
      simp only [deprecateTool, List.map_map]
      apply List.map_congr_left
      intro t _
      by_cases hdep : t.status = ToolStatus.deprecated
      · by_cases hid : t.id = r.id <;>
          simp [Function.comp, hdep, hid]
      · by_cases hid : t.id = r.id
        · have hbeq : (t.id == r.id) = true := by simp [hid]
          simp [Function.comp, hbeq, hdep, hid]
        · have hbeq : (t.id == r.id) = false := by simp [hid]
          simp [Function.comp, hbeq, hdep]

/-- Helper: a duplicate-free id list with all ids equal forces length ≤ 1. -/
theorem length_le_one_of_const_id (l : List ToolArtifact) (k : Nat)
    (hn : (l.map (fun t => t.id)).Nodup) (hall : ∀ t ∈ l, t.id = k) :
    l.length ≤ 1 := by
  match l with
  | [] => simp
  | [t] => simp
  | t1 :: t2 :: rest =>
      exfalso
      have h1 := hall t1 (by simp)
      have h2 := hall t2 (by simp)
      simp only [List.map_cons, List.nodup_cons, List.mem_cons, List.mem_map] at hn
      exact hn.1 (Or.inl (h2 ▸ h1))

/-- C7: whenever `check_and_resolve(new_tool_id, contract_id)` returns
(with distinct row ids, as the autoincrement table guarantees): if at
most one active tool shares the contract id it returns `no_action` and
changes nothing; otherwise it deprecates every active tool except the
top-scoring one — so at most one artifact sharing that contract id keeps
a status other than DEPRECATED — and appends exactly one batch-merge
record linking the canonical id to the demoted ids. -/
theorem check_and_resolve_at_most_one_active (st : DedupState) (nid : Nat)
    (cid : String)
    (hnodup : (st.registry.tools.map (fun t => t.id)).Nodup) :
    ((activeForContract st.registry cid).length ≤ 1 →
        check_and_resolve st nid cid = ("no_action", st))
    ∧ (2 ≤ (activeForContract st.registry cid).length →
        (activeForContract (check_and_resolve st nid cid).2.registry cid).length ≤ 1
        ∧ (check_and_resolve st nid cid).2.mergeRecords.length
            = st.mergeRecords.length + 1) := by
  constructor
  · intro h
    simp only [activeForContract] at h
    simp only [check_and_resolve]
    rw [if_pos h]
  · intro h2
    have hne : ¬ ((activeForContract st.registry cid).length ≤ 1) := by omega
    simp only [activeForContract] at h2 hne
    simp only [check_and_resolve]
    rw [if_neg hne]
    cases hs : sortDesc score_tool
        ((ToolRegistry.find_by_contract_id st.registry cid).filter
          (fun t => !(t.status == ToolStatus.deprecated))) with
    | nil =>
        exfalso
        have hlen := length_sortDesc score_tool
          ((ToolRegistry.find_by_contract_id st.registry cid).filter
            (fun t => !(t.status == ToolStatus.deprecated)))
        rw [hs] at hlen
        simp only [List.length_nil] at hlen
        omega
    | cons best rest =>
        refine ⟨?_, by simp⟩
        simp only [activeForContract, ToolRegistry.find_by_contract_id,
          foldl_deprecate_tools]
        set df : ToolArtifact → ToolArtifact := fun t =>
          if (rest.any (fun s => t.id == s.id)) && !(t.status == ToolStatus.deprecated)
          then { t with status := ToolStatus.deprecated } else t with hdf
        have hdfid : ∀ t : ToolArtifact, (df t).id = t.id := by
          intro t
          simp only [hdf]
          by_cases hc : ((rest.any fun s => t.id == s.id)
              && !(t.status == ToolStatus.deprecated)) = true
          · simp [hc]
          · simp [hc]
        apply length_le_one_of_const_id _ best.id
        · have hsub : (((st.registry.tools.map df).filter
              (fun t => t.contract_id == some cid)).filter
                (fun t => !(t.status == ToolStatus.deprecated))).Sublist
              (st.registry.tools.map df) :=
            (List.filter_sublist _).trans (List.filter_sublist _)
          have hids : (st.registry.tools.map df).map (fun t => t.id)
              = st.registry.tools.map (fun t => t.id) := by
            rw [List.map_map]
            exact List.map_congr_left (fun t _ => hdfid t)
          have := hsub.map (fun t => t.id)
          rw [hids] at this
          exact List.Nodup.sublist this hnodup
        · intro u hu
          obtain ⟨hu1, hact⟩ := List.mem_filter.mp hu
          obtain ⟨hu2, hcid⟩ := List.mem_filter.mp hu1
          obtain ⟨t, htL, hdft⟩ := List.mem_map.mp hu2
          by_cases hcond : ((rest.any (fun s => t.id == s.id))
              && !(t.status == ToolStatus.deprecated)) = true
          · exfalso
            have : u = { t with status := ToolStatus.deprecated } := by
              rw [← hdft, hdf]
              simp [hcond]
            rw [this] at hact
            simp at hact
          · have hut : u = t := by
              rw [← hdft, hdf]
              simp only [Bool.not_eq_true] at hcond
              simp [hcond]
            subst hut
            have hnotdep : (!(u.status == ToolStatus.deprecated)) = true := hact
            have hany : (rest.any (fun s => u.id == s.id)) = false := by
              cases hany : rest.any (fun s => u.id == s.id) with
              | false => rfl
              | true =>
                  exfalso
                  apply hcond
                  simp [hany, hnotdep]
            have hmemact : u ∈ (ToolRegistry.find_by_contract_id st.registry cid).filter
                (fun t => !(t.status == ToolStatus.deprecated)) := by
              refine List.mem_filter.mpr ⟨?_, hnotdep⟩
              exact List.mem_filter.mpr ⟨htL, hcid⟩
            have hmemsort := mem_sortDesc score_tool _ u hmemact
            rw [hs] at hmemsort
            rcases List.mem_cons.mp hmemsort with rfl | hmemrest
            · rfl
            · exfalso
              have : rest.any (fun s => u.id == s.id) = true :=
                List.any_eq_true.mpr ⟨u, hmemrest, by simp⟩
              rw [hany] at this
              cases this

/-- Witness for C7 on a concrete registry with two active `calc_rsi`
tools and distinct ids. -/
theorem check_and_resolve_at_most_one_active_witness :
    (dedupExample.registry.tools.map (fun t => t.id)).Nodup
    ∧ 2 ≤ (activeForContract dedupExample.registry "calc_rsi").length
    ∧ (((activeForContract dedupExample.registry "calc_rsi").length ≤ 1 →
          check_and_resolve dedupExample 2 "calc_rsi" = ("no_action", dedupExample))
       ∧ (2 ≤ (activeForContract dedupExample.registry "calc_rsi").length →
          (activeForContract (check_and_resolve dedupExample 2 "calc_rsi").2.registry
              "calc_rsi").length ≤ 1
          ∧ (check_and_resolve dedupExample 2 "calc_rsi").2.mergeRecords.length
              = dedupExample.mergeRecords.length + 1)) :=
  ⟨by decide, by decide,
   check_and_resolve_at_most_one_active dedupExample 2 "calc_rsi" (by decide)⟩

end FinEvo
